import Mathlib

/-!
Verification development for the emyco Game Boy emulator core
(src/src-tauri/src/gameboy of the repository under review).

The Rust components are shallowly embedded as Lean structures and pure
functions.  Machine integers are modelled as Nat with explicit reductions
(mod 256 / mod 65536) exactly at the points where the source relies on
wrapping semantics; bitflags types are modelled as structures of named
Bools, one field per flag bit declared in the source, with explicit
conversions to and from the underlying byte.  Stateful methods become
functions from the component state to the updated state.  Places where
the source would panic (unwrap / expect / explicit panic) set a dedicated
panicked flag; no claim exercises those paths.  Loops whose bound is not
structural take an explicit fuel argument; every theorem either does not
reach the fuel bound or quantifies over it.
-/

namespace Emyco

/-- GlobalConstants::SYSTEM_CLOCK_RATE from gameboy/mod.rs. -/
def SYSTEM_CLOCK_RATE : Nat := 4194304

/-- GlobalConstants::CYCLE_RESOLUTION from gameboy/mod.rs. -/
def CYCLE_RESOLUTION : Nat := 4

/-- GlobalConstants::AUDIO_ENABLED from gameboy/mod.rs. -/
def AUDIO_ENABLED : Bool := true

/-- Modelled from the spec: gameboy/joypad.rs references
GlobalConstants::JOYPAD_INPUT_RESPONSIVENESS, which is absent from the
source tree under src/.  The spec (section 5) only says input is polled
every N T-cycles at a configurable cadence; the only cadence constant in
the source is INPUT_RESPONSIVENESS = 70224, so that value is used.  The
constant only gates the empty (fully commented-out) body of
Joypad::tick, so its exact value is irrelevant to every claim. -/
def JOYPAD_INPUT_RESPONSIVENESS : Nat := 70224

/-- Wrapping u8 arithmetic helper (mod 256). -/
def wrap8 (n : Nat) : Nat := n % 256

/-- Wrapping u16 arithmetic helper (mod 65536). -/
def wrap16 (n : Nat) : Nat := n % 65536

/-- Wrapping u32 subtraction a - b (two's complement wrap, release-mode
Rust semantics). -/
def wsub32 (a b : Nat) : Nat := (a + 4294967296 - b % 4294967296) % 4294967296

/-- Interrupt bitflags from gameboy/memory.rs: VBLANK = bit 0, LCD = bit 1,
TIMER = bit 2, SERIAL = bit 3, JOYPAD = bit 4.  Modelled as one Bool per
declared flag. -/
structure Interrupt where
  vblank : Bool
  lcd : Bool
  timer : Bool
  serial : Bool
  joypad : Bool
deriving DecidableEq, Repr

namespace Interrupt

/-- Interrupt::empty(). -/
def empty : Interrupt := ⟨false, false, false, false, false⟩

/-- The VBLANK flag alone. -/
def VBLANK : Interrupt := ⟨true, false, false, false, false⟩

/-- The LCD flag alone. -/
def LCD : Interrupt := ⟨false, true, false, false, false⟩

/-- The TIMER flag alone. -/
def TIMER : Interrupt := ⟨false, false, true, false, false⟩

/-- The SERIAL flag alone. -/
def SERIAL : Interrupt := ⟨false, false, false, true, false⟩

/-- The JOYPAD flag alone. -/
def JOYPAD : Interrupt := ⟨false, false, false, false, true⟩

/-- bitflags insert / union (the |= operator on Interrupt). -/
def insert (a b : Interrupt) : Interrupt :=
  ⟨a.vblank || b.vblank, a.lcd || b.lcd, a.timer || b.timer,
   a.serial || b.serial, a.joypad || b.joypad⟩

/-- Interrupt::bits(): the underlying byte. -/
def bits (a : Interrupt) : Nat :=
  (cond a.vblank 1 0) + (cond a.lcd 2 0) + (cond a.timer 4 0) +
  (cond a.serial 8 0) + (cond a.joypad 16 0)

/-- Interrupt::from_bits_truncate: keep only the declared flag bits. -/
def from_bits_truncate (n : Nat) : Interrupt :=
  ⟨n.testBit 0, n.testBit 1, n.testBit 2, n.testBit 3, n.testBit 4⟩

/-- bitflags is_empty(). -/
def isEmpty (a : Interrupt) : Bool :=
  !a.vblank && !a.lcd && !a.timer && !a.serial && !a.joypad

end Interrupt

/-! ## Timer (gameboy/timer.rs) -/

/-- Frequency enum from timer.rs. -/
inductive Frequency where
  | Increment256
  | Increment4
  | Increment16
  | Increment64
deriving DecidableEq, Repr

/-- TimaReload enum from timer.rs. -/
inductive TimaReload where
  | Idle
  | Reloading
  | Reloaded
deriving DecidableEq, Repr

/-- Timer state from timer.rs.  clock is the 16-bit internal counter,
cycles the pending T-cycle accumulator (u32). -/
structure Timer where
  enabled : Bool
  clock : Nat
  cycles : Nat
  frequency : Frequency
  tma : Nat
  tima : Nat
  tima_reload : TimaReload
  pending_interrupts : Option Interrupt
deriving DecidableEq, Repr

namespace Timer

/-- Timer::new(). -/
def new : Timer :=
  { enabled := false, clock := 0, cycles := 0,
    frequency := Frequency.Increment256, tma := 0, tima := 0,
    tima_reload := TimaReload.Idle, pending_interrupts := none }

/-- Timer::edge_detect: the tapped clock bit AND the enable flag. -/
def edge_detect (t : Timer) : Bool :=
  let freq_bit : Nat :=
    match t.frequency with
    | Frequency.Increment256 => 2 ^ 9
    | Frequency.Increment4 => 2 ^ 3
    | Frequency.Increment16 => 2 ^ 5
    | Frequency.Increment64 => 2 ^ 7
  (freq_bit &&& t.clock != 0) && t.enabled

/-- Timer::timer_increment: wrapping increment of TIMA; on overflow start
the reload machine and request the TIMER interrupt. -/
def timer_increment (t : Timer) : Timer :=
  let tima := wrap8 (t.tima + 1)
  if tima = 0 then
    { t with tima := tima, tima_reload := TimaReload.Reloading,
             pending_interrupts :=
               some ((t.pending_interrupts.getD Interrupt.empty).insert
                       Interrupt.TIMER) }
  else
    { t with tima := tima }

/-- One 4-cycle group of Timer::tick's while body: step the reload
machine, then advance the clock by 4 and increment TIMA on a falling
edge of the tapped bit. -/
def groupStep (t : Timer) : Timer :=
  let t :=
    match t.tima_reload with
    | TimaReload.Idle => t
    | TimaReload.Reloading =>
        { t with tima := t.tma, tima_reload := TimaReload.Reloaded }
    | TimaReload.Reloaded => { t with tima_reload := TimaReload.Idle }
  let current_edge := t.edge_detect
  let t := { t with clock := wrap16 (t.clock + 4) }
  let modified_edge := t.edge_detect
  if current_edge && !modified_edge then t.timer_increment else t

/-- Fuelled form of the while loop in Timer::tick.  Each iteration
consumes 4 accumulated cycles, so fuel = accumulated cycles always
suffices. -/
def tickLoop : Nat → Timer → Timer
  | 0, t => t
  | fuel + 1, t =>
      if 4 ≤ t.cycles then
        tickLoop fuel (groupStep { t with cycles := t.cycles - 4 })
      else t

/-- Timer::tick. -/
def tick (t : Timer) (cycles : Nat) : Timer :=
  tickLoop (t.cycles + cycles) { t with cycles := t.cycles + cycles }

/-- Timer::retrieve_interrupts: take the pending interrupts. -/
def retrieve_interrupts (t : Timer) : Option Interrupt × Timer :=
  (t.pending_interrupts, { t with pending_interrupts := none })

/-- Timer::read (addresses 0xFF04-0xFF07). -/
def read (t : Timer) (address : Nat) : Nat :=
  if address = 0xFF04 then (t.clock &&& 0xFF00) >>> 8
  else if address = 0xFF05 then t.tima
  else if address = 0xFF06 then t.tma
  else if address = 0xFF07 then
    let value := cond t.enabled 0b100 0
    match t.frequency with
    | Frequency.Increment256 => value
    | Frequency.Increment4 => value ||| 1
    | Frequency.Increment16 => value ||| 2
    | Frequency.Increment64 => value ||| 3
  else 0

/-- Timer::write (addresses 0xFF04-0xFF07). -/
def write (t : Timer) (address : Nat) (value : Nat) : Timer :=
  if address = 0xFF04 then
    let current_edge := t.edge_detect
    let t := { t with clock := 0 }
    let modified_edge := t.edge_detect
    if current_edge && !modified_edge then t.timer_increment else t
  else if address = 0xFF05 then
    match t.tima_reload with
    | TimaReload.Idle => { t with tima := value }
    | TimaReload.Reloading =>
        -- Writing to TIMA before it has finished reloading cancels the reload
        { t with tima_reload := TimaReload.Idle, tima := value }
    | TimaReload.Reloaded =>
        -- Writes are ignored in the same cycle that TIMA was reloaded
        t
  else if address = 0xFF06 then
    let t := { t with tma := value }
    if t.tima_reload = TimaReload.Reloaded then { t with tima := t.tma } else t
  else if address = 0xFF07 then
    let current_edge := t.edge_detect
    let t :=
      { t with enabled := value &&& 0b100 != 0,
               frequency :=
                 match value &&& 0b11 with
                 | 0 => Frequency.Increment256
                 | 1 => Frequency.Increment4
                 | 2 => Frequency.Increment16
                 | _ => Frequency.Increment64 }
    let modified_edge := t.edge_detect
    if current_edge && !modified_edge then t.timer_increment else t
  else t

end Timer

/-! ## Serial (gameboy/serial.rs) -/

/-- TransferState enum from serial.rs. -/
inductive TransferState where
  | Waiting
  | InProgress (byte : Nat) (shifts : Nat)
deriving DecidableEq, Repr

/-- ClockSpeed enum from serial.rs. -/
inductive ClockSpeed where
  | Hz8192
  | Hz16384
  | Hz262144
  | Hz524288
deriving DecidableEq, Repr

/-- Serial state from serial.rs.  The print! sink for completed bytes is
modelled by the output list (most recent byte last). -/
structure Serial where
  transfer_state : TransferState
  clock_speed : ClockSpeed
  sb_register : Nat
  master : Bool
  remaining_cycles : Int
  pending_interrupts : Option Interrupt
  output : List Nat
deriving DecidableEq, Repr

namespace Serial

/-- Serial::new(). -/
def new : Serial :=
  { transfer_state := TransferState.Waiting, clock_speed := ClockSpeed.Hz8192,
    sb_register := 0, master := false, remaining_cycles := 0,
    pending_interrupts := none, output := [] }

/-- Serial::tick: at most one shift event per call, gated by the
free-running remaining_cycles divider. -/
def tick (s : Serial) (cycles : Nat) : Serial :=
  let s := { s with remaining_cycles := s.remaining_cycles - (cycles : Int) }
  if 0 < s.remaining_cycles then s
  else
    let add : Int :=
      match s.clock_speed with
      | ClockSpeed.Hz8192 => (SYSTEM_CLOCK_RATE : Int) / 8192
      | ClockSpeed.Hz16384 => (SYSTEM_CLOCK_RATE : Int) / 16384
      | ClockSpeed.Hz262144 => (SYSTEM_CLOCK_RATE : Int) / 262144
      | ClockSpeed.Hz524288 => (SYSTEM_CLOCK_RATE : Int) / 524288
    let s := { s with remaining_cycles := s.remaining_cycles + add }
    match s.transfer_state with
    | TransferState.InProgress byte shifts =>
        if 8 ≤ shifts then
          { s with output := s.output ++ [byte],
                   transfer_state := TransferState.Waiting,
                   pending_interrupts :=
                     some ((s.pending_interrupts.getD Interrupt.empty).insert
                             Interrupt.SERIAL) }
        else
          { s with sb_register := wrap8 (s.sb_register <<< 1),
                   transfer_state := TransferState.InProgress byte (shifts + 1) }
    | TransferState.Waiting => s

/-- Serial::retrieve_interrupts. -/
def retrieve_interrupts (s : Serial) : Option Interrupt × Serial :=
  (s.pending_interrupts, { s with pending_interrupts := none })

/-- Serial::read (0xFF01 / 0xFF02); other addresses panic in the source
and are mapped to 0 here (unreachable from the bus). -/
def read (s : Serial) (address : Nat) : Nat :=
  if address = 0xFF01 then s.sb_register
  else if address = 0xFF02 then
    let sc := match s.transfer_state with
              | TransferState.Waiting => 0
              | _ => 0x80
    let sc := sc ||| (match s.clock_speed with
                      | ClockSpeed.Hz8192 | ClockSpeed.Hz16384 => 0
                      | ClockSpeed.Hz262144 | ClockSpeed.Hz524288 => 0b10)
    sc ||| (cond s.master 1 0)
  else 0

/-- Serial::write (0xFF01 / 0xFF02). -/
def write (s : Serial) (address : Nat) (value : Nat) : Serial :=
  if address = 0xFF01 then { s with sb_register := value }
  else if address = 0xFF02 then
    let s :=
      if (s.transfer_state = TransferState.Waiting) ∧ (value &&& 0x80 ≠ 0)
      then { s with transfer_state := TransferState.InProgress s.sb_register 0 }
      else s
    let s :=
      if value &&& 0b10 != 0 then { s with clock_speed := ClockSpeed.Hz262144 }
      else { s with clock_speed := ClockSpeed.Hz8192 }
    { s with master := value &&& 1 != 0 }
  else s

end Serial

/-! ## Joypad (gameboy/joypad.rs) -/

/-- JOYP bitflags from joypad.rs, one Bool per declared flag:
SELECT_BUTTONS = bit 5, SELECT_DPAD = bit 4, DOWN_START = bit 3,
UP_SELECT = bit 2, LEFT_B = bit 1, RIGHT_A = bit 0. -/
structure JOYP where
  select_buttons : Bool
  select_dpad : Bool
  down_start : Bool
  up_select : Bool
  left_b : Bool
  right_a : Bool
deriving DecidableEq, Repr

namespace JOYP

/-- JOYP::all(). -/
def all : JOYP := ⟨true, true, true, true, true, true⟩

/-- bitflags bits(). -/
def bits (j : JOYP) : Nat :=
  (cond j.right_a 1 0) + (cond j.left_b 2 0) + (cond j.up_select 4 0) +
  (cond j.down_start 8 0) + (cond j.select_dpad 16 0) +
  (cond j.select_buttons 32 0)

/-- bitflags intersection. -/
def intersection (a b : JOYP) : JOYP :=
  ⟨a.select_buttons && b.select_buttons, a.select_dpad && b.select_dpad,
   a.down_start && b.down_start, a.up_select && b.up_select,
   a.left_b && b.left_b, a.right_a && b.right_a⟩

end JOYP

/-- JoypadAction enum from joypad.rs. -/
inductive JoypadAction where
  | Up | Down | Left | Right | Start | Select | B | A
deriving DecidableEq, Repr

/-- Joypad state from joypad.rs. -/
structure Joypad where
  dpad : JOYP
  buttons : JOYP
  dpad_selected : Bool
  buttons_selected : Bool
  clock : Nat
  pending_interrupts : Option Interrupt

namespace Joypad

/-- Joypad::new(): both half-states all-ones except their own select bit. -/
def new : Joypad :=
  { dpad := { JOYP.all with select_dpad := false },
    buttons := { JOYP.all with select_buttons := false },
    dpad_selected := false, buttons_selected := false,
    clock := 0, pending_interrupts := none }

/-- Joypad::keydown: clear the corresponding active-low bit.  As in the
source, no interrupt is requested here. -/
def keydown (j : Joypad) (action : JoypadAction) : Joypad :=
  match action with
  | JoypadAction.Up => { j with dpad := { j.dpad with up_select := false } }
  | JoypadAction.Down => { j with dpad := { j.dpad with down_start := false } }
  | JoypadAction.Left => { j with dpad := { j.dpad with left_b := false } }
  | JoypadAction.Right => { j with dpad := { j.dpad with right_a := false } }
  | JoypadAction.Start =>
      { j with buttons := { j.buttons with down_start := false } }
  | JoypadAction.Select =>
      { j with buttons := { j.buttons with up_select := false } }
  | JoypadAction.B => { j with buttons := { j.buttons with left_b := false } }
  | JoypadAction.A => { j with buttons := { j.buttons with right_a := false } }

/-- Joypad::keyup: set the corresponding active-low bit. -/
def keyup (j : Joypad) (action : JoypadAction) : Joypad :=
  match action with
  | JoypadAction.Up => { j with dpad := { j.dpad with up_select := true } }
  | JoypadAction.Down => { j with dpad := { j.dpad with down_start := true } }
  | JoypadAction.Left => { j with dpad := { j.dpad with left_b := true } }
  | JoypadAction.Right => { j with dpad := { j.dpad with right_a := true } }
  | JoypadAction.Start =>
      { j with buttons := { j.buttons with down_start := true } }
  | JoypadAction.Select =>
      { j with buttons := { j.buttons with up_select := true } }
  | JoypadAction.B => { j with buttons := { j.buttons with left_b := true } }
  | JoypadAction.A => { j with buttons := { j.buttons with right_a := true } }

/-- Joypad::read (0xFF00): the selection-masked value. -/
def read (j : Joypad) : Nat :=
  match j.dpad_selected, j.buttons_selected with
  | true, true => (j.dpad.intersection j.buttons).bits
  | true, false => j.dpad.bits
  | false, true => j.buttons.bits
  | false, false => JOYP.all.bits

/-- Joypad::write (0xFF00): update the two selection flags. -/
def write (j : Joypad) (value : Nat) : Joypad :=
  { j with dpad_selected := value &&& 16 = 0,
           buttons_selected := value &&& 32 = 0 }

/-- Joypad::retrieve_interrupts. -/
def retrieve_interrupts (j : Joypad) : Option Interrupt × Joypad :=
  (j.pending_interrupts, { j with pending_interrupts := none })

/-- Joypad::tick: the clock gate; the gated body is fully commented out
in the source, so nothing else happens. -/
def tick (j : Joypad) (cycles : Nat) : Joypad :=
  let j := { j with clock := j.clock + cycles }
  if j.clock < JOYPAD_INPUT_RESPONSIVENESS then j
  else { j with clock := j.clock - JOYPAD_INPUT_RESPONSIVENESS }

end Joypad

/-! ## APU channels (gameboy/apu/channel.rs)

Only the register-visible parts are needed by the memory-bus claims:
the structures below carry the state read and written through the
0xFF10-0xFF3F registers, translated from channel.rs.  The band-limited
sample accumulator (the external blip_buf FFI object) and the per-channel
tick functions produce audio samples only; no claim mentions them and
they are not embedded. -/

/-- SweepDirection enum from channel.rs. -/
inductive SweepDirection where
  | Increase
  | Decrease
deriving DecidableEq, Repr

/-- Sweep registers from channel.rs. -/
structure Sweep where
  pace : Nat
  direction : SweepDirection
  step : Nat
  accumulated_cycles : Nat
deriving DecidableEq, Repr

namespace Sweep

/-- From u8 for Sweep. -/
def fromU8 (value : Nat) : Sweep :=
  { pace := (value &&& 0x70) >>> 4,
    direction := if value &&& 0x08 = 0 then SweepDirection.Increase
                 else SweepDirection.Decrease,
    step := value &&& 0x07,
    accumulated_cycles := 0 }

/-- From Sweep for u8. -/
def toU8 (s : Sweep) : Nat :=
  ((s.pace &&& 0x07) <<< 4) |||
  (match s.direction with
   | SweepDirection.Increase => 0
   | SweepDirection.Decrease => 0x08) |||
  (s.step &&& 0x07)

end Sweep

/-- VolumeEnvelopeDirection enum from channel.rs. -/
inductive VolumeEnvelopeDirection where
  | Increasing
  | Decreasing
deriving DecidableEq, Repr

/-- VolumeEnvelope from channel.rs. -/
structure VolumeEnvelope where
  current_volume : Nat
  initial_volume : Nat
  envelope_direction : VolumeEnvelopeDirection
  envelope_sweep_pace : Nat
  envelope_timer : Nat
  accumulated_cycles : Nat
deriving DecidableEq, Repr

namespace VolumeEnvelope

/-- VolumeEnvelope::new(). -/
def new : VolumeEnvelope :=
  { current_volume := 0, initial_volume := 0,
    envelope_direction := VolumeEnvelopeDirection.Decreasing,
    envelope_sweep_pace := 0, envelope_timer := 0, accumulated_cycles := 0 }

/-- VolumeEnvelope::update. -/
def update (v : VolumeEnvelope) (value : Nat) : VolumeEnvelope :=
  { v with initial_volume := value >>> 4,
           envelope_direction :=
             if value &&& 0x08 = 0 then VolumeEnvelopeDirection.Decreasing
             else VolumeEnvelopeDirection.Increasing,
           envelope_sweep_pace := value &&& 0x07 }

/-- VolumeEnvelope::is_disabled. -/
def is_disabled (v : VolumeEnvelope) : Bool :=
  decide (v.initial_volume = 0 ∧
    v.envelope_direction = VolumeEnvelopeDirection.Decreasing)

/-- VolumeEnvelope::reset. -/
def reset (v : VolumeEnvelope) : VolumeEnvelope :=
  { v with current_volume := v.initial_volume, envelope_timer := 0 }

/-- From VolumeEnvelope for u8. -/
def toU8 (v : VolumeEnvelope) : Nat :=
  (v.initial_volume <<< 4) |||
  (match v.envelope_direction with
   | VolumeEnvelopeDirection.Decreasing => 0
   | VolumeEnvelopeDirection.Increasing => 0x08) |||
  v.envelope_sweep_pace

end VolumeEnvelope

/-- LengthTimer from channel.rs. -/
structure LengthTimer where
  enabled : Bool
  initial_length_timer : Nat
  current_length_timer : Nat
  target_length : Nat
  accumulated_cycles : Nat
deriving DecidableEq, Repr

namespace LengthTimer

/-- LengthTimer::new. -/
def new (target_length : Nat) : LengthTimer :=
  { enabled := false, initial_length_timer := 0, current_length_timer := 0,
    target_length := target_length, accumulated_cycles := 0 }

/-- LengthTimer::set_enabled. -/
def set_enabled (l : LengthTimer) (enabled : Bool) : LengthTimer :=
  { l with enabled := enabled }

/-- LengthTimer::set_initial_length. -/
def set_initial_length (l : LengthTimer) (value : Nat) : LengthTimer :=
  { l with initial_length_timer := value }

/-- LengthTimer::get_initial_length. -/
def get_initial_length (l : LengthTimer) : Nat := l.initial_length_timer

/-- LengthTimer::is_enabled. -/
def is_enabled (l : LengthTimer) : Bool := l.enabled

/-- LengthTimer::reset. -/
def reset (l : LengthTimer) : LengthTimer :=
  { l with current_length_timer := l.initial_length_timer }

end LengthTimer

/-- Period from channel.rs. -/
structure Period where
  period_divider : Nat
  period_reset : Nat
  period_phase : Nat
  clock_rate : Nat
  phase_count : Nat
deriving DecidableEq, Repr

namespace Period

/-- Period::new. -/
def new (clock_rate phase_count : Nat) : Period :=
  { period_divider := 0, period_reset := 0, period_phase := 0,
    clock_rate := clock_rate, phase_count := phase_count }

/-- Period::reset. -/
def reset (p : Period) : Period :=
  { p with period_divider := (2048 - min p.period_reset 2048) * p.clock_rate,
           period_phase := (p.period_phase + 1) % p.phase_count }

/-- Period::reset_phase_counter. -/
def reset_phase_counter (p : Period) : Period := { p with period_phase := 0 }

/-- Period::get_phase. -/
def get_phase (p : Period) : Nat := p.period_phase

/-- Period::set_period. -/
def set_period (p : Period) (value : Nat) : Period :=
  { p with period_reset := value }

/-- Period::get_period. -/
def get_period (p : Period) : Nat := p.period_reset

/-- Period::set_period_lower. -/
def set_period_lower (p : Period) (value : Nat) : Period :=
  { p with period_reset := (p.period_reset &&& 0xFF00) ||| value }

/-- Period::set_period_upper. -/
def set_period_upper (p : Period) (value : Nat) : Period :=
  { p with period_reset := (p.period_reset &&& 0x00FF) |||
                             ((value &&& 0x07) <<< 8) }

end Period

/-- LSFRWidth enum from channel.rs. -/
inductive LSFRWidth where
  | Bit15
  | Bit7
deriving DecidableEq, Repr

/-- Lsfr from channel.rs. -/
structure Lsfr where
  value : Nat
  width : LSFRWidth
  period : Nat
  clock : Nat
  register : Nat
deriving DecidableEq, Repr

namespace Lsfr

/-- Lsfr::new. -/
def new : Lsfr :=
  { value := 0, width := LSFRWidth.Bit15, period := 0, clock := 0,
    register := 0 }

/-- Lsfr::update. -/
def update (l : Lsfr) (value : Nat) : Lsfr :=
  { l with width := if value &&& 0x08 = 0 then LSFRWidth.Bit15
                    else LSFRWidth.Bit7,
           period := (max ((value &&& 0b111) * 16) 8) <<< ((value &&& 0xF0) >>> 4),
           register := value }

/-- Lsfr::reset. -/
def reset (l : Lsfr) : Lsfr := { l with value := 0 }

/-- From Lsfr for u8. -/
def toU8 (l : Lsfr) : Nat := l.register

end Lsfr

/-- WaveDuty enum from channel.rs. -/
inductive WaveDuty where
  | Duty12_5
  | Duty25
  | Duty50
  | Duty75
deriving DecidableEq, Repr

/-- PulseChannel from channel.rs (register-visible state; the blip_buf
sample accumulator is external FFI state and is not embedded). -/
structure PulseChannel where
  enabled : Bool
  sweep : Sweep
  wave_duty : WaveDuty
  length_timer : LengthTimer
  volume_envelope : VolumeEnvelope
  period : Period
  current_amplitude : Nat
  last_amplitude : Nat
  clock : Nat
deriving DecidableEq, Repr

namespace PulseChannel

/-- PulseChannel::new. -/
def new : PulseChannel :=
  { enabled := false, sweep := Sweep.fromU8 0, wave_duty := WaveDuty.Duty12_5,
    length_timer := LengthTimer.new 64, volume_envelope := VolumeEnvelope.new,
    period := Period.new 4 8, current_amplitude := 0, last_amplitude := 0,
    clock := 0 }

/-- PulseChannel::read (channel-relative address). -/
def read (c : PulseChannel) (address : Nat) : Nat :=
  if address = 0x0000 then c.sweep.toU8
  else if address = 0x0001 then
    let wave_duty := match c.wave_duty with
                     | WaveDuty.Duty12_5 => 0
                     | WaveDuty.Duty25 => 1
                     | WaveDuty.Duty50 => 2
                     | WaveDuty.Duty75 => 3
    wave_duty ||| c.length_timer.get_initial_length
  else if address = 0x0002 then c.volume_envelope.toU8
  else if address = 0x0004 then cond c.length_timer.is_enabled 0x40 0
  else 0xFF

/-- PulseChannel::write (channel-relative address). -/
def write (c : PulseChannel) (address : Nat) (value : Nat) : PulseChannel :=
  if address = 0x0000 then { c with sweep := Sweep.fromU8 value }
  else if address = 0x0001 then
    { c with wave_duty := match (value &&& 0xC0) >>> 6 with
                          | 0 => WaveDuty.Duty12_5
                          | 1 => WaveDuty.Duty25
                          | 2 => WaveDuty.Duty50
                          | _ => WaveDuty.Duty75,
             length_timer := c.length_timer.set_initial_length (value &&& 0x3F) }
  else if address = 0x0002 then
    let c := { c with volume_envelope := c.volume_envelope.update value }
    if c.volume_envelope.is_disabled then { c with enabled := false } else c
  else if address = 0x0003 then
    { c with period := c.period.set_period_lower value }
  else if address = 0x0004 then
    let c :=
      if value &&& 0x80 ≠ 0 then
        { c with enabled := true, length_timer := c.length_timer.reset,
                 period := c.period.reset,
                 volume_envelope := c.volume_envelope.reset }
      else c
    let c := { c with length_timer := c.length_timer.set_enabled
                                        (value &&& 0x40 ≠ 0) }
    { c with period := c.period.set_period_upper value }
  else c

/-- PulseChannel::is_enabled. -/
def is_enabled (c : PulseChannel) : Bool := c.enabled

end PulseChannel

/-- WaveChannelVolume enum from channel.rs. -/
inductive WaveChannelVolume where
  | Mute
  | Volume100
  | Volume50
  | Volume25
deriving DecidableEq, Repr

/-- WaveChannel from channel.rs (register-visible state). -/
structure WaveChannel where
  enabled : Bool
  dac_enabled : Bool
  length_timer : LengthTimer
  volume : WaveChannelVolume
  period : Period
  wave_ram : Nat → Nat
  current_amplitude : Nat
  last_amplitude : Nat
  clock : Nat

namespace WaveChannel

/-- WaveChannel::new. -/
def new : WaveChannel :=
  { enabled := false, dac_enabled := true,
    length_timer := LengthTimer.new 256, volume := WaveChannelVolume.Mute,
    period := Period.new 2 32, wave_ram := fun _ => 0,
    current_amplitude := 0, last_amplitude := 0, clock := 0 }

/-- WaveChannel::read (absolute address). -/
def read (c : WaveChannel) (address : Nat) : Nat :=
  if address = 0xFF1A then cond c.dac_enabled 0x80 0
  else if address = 0xFF1C then
    match c.volume with
    | WaveChannelVolume.Mute => 0x00
    | WaveChannelVolume.Volume100 => 0x20
    | WaveChannelVolume.Volume50 => 0x40
    | WaveChannelVolume.Volume25 => 0x60
  else if address = 0xFF1D then c.period.get_period &&& 0xFF
  else if address = 0xFF1E then cond c.length_timer.is_enabled 0x40 0
  else if 0xFF30 ≤ address ∧ address ≤ 0xFF3F then
    if c.enabled then 0xFF else c.wave_ram (address - 0xFF30)
  else 0xFF

/-- WaveChannel::write (absolute address). -/
def write (c : WaveChannel) (address : Nat) (value : Nat) : WaveChannel :=
  if address = 0xFF1A then
    let c := { c with dac_enabled := value &&& 0x80 ≠ 0 }
    if !c.dac_enabled then { c with enabled := false } else c
  else if address = 0xFF1B then
    { c with length_timer := c.length_timer.set_initial_length value }
  else if address = 0xFF1C then
    { c with volume := match value &&& 0x60 with
                       | 0 => WaveChannelVolume.Mute
                       | 1 => WaveChannelVolume.Volume100
                       | 2 => WaveChannelVolume.Volume50
                       | _ => WaveChannelVolume.Volume25 }
  else if address = 0xFF1D then
    { c with period := c.period.set_period_lower value }
  else if address = 0xFF1E then
    let c := { c with period := c.period.set_period_upper (value &&& 0x07) }
    let c := { c with length_timer := c.length_timer.set_enabled
                                        (value &&& 0x40 ≠ 0) }
    if value &&& 0x80 ≠ 0 then
      { c with enabled := true, length_timer := c.length_timer.reset,
               period := (c.period.reset).reset_phase_counter }
    else c
  else if 0xFF30 ≤ address ∧ address ≤ 0xFF3F then
    if !c.enabled then
      { c with wave_ram := fun i => if i = address - 0xFF30 then value
                                    else c.wave_ram i }
    else c
  else c

/-- WaveChannel::is_enabled. -/
def is_enabled (c : WaveChannel) : Bool := c.enabled

end WaveChannel

/-- NoiseChannel from channel.rs (register-visible state). -/
structure NoiseChannel where
  enabled : Bool
  length_timer : LengthTimer
  volume_envelope : VolumeEnvelope
  current_amplitude : Nat
  last_amplitude : Nat
  clock : Nat
  lsfr : Lsfr
deriving DecidableEq, Repr

namespace NoiseChannel

/-- NoiseChannel::new. -/
def new : NoiseChannel :=
  { enabled := false, length_timer := LengthTimer.new 64,
    volume_envelope := VolumeEnvelope.new, current_amplitude := 0,
    last_amplitude := 0, clock := 0, lsfr := Lsfr.new }

/-- NoiseChannel::read (absolute address). -/
def read (c : NoiseChannel) (address : Nat) : Nat :=
  if address = 0xFF21 then c.volume_envelope.toU8
  else if address = 0xFF22 then c.lsfr.toU8
  else if address = 0xFF23 then cond c.length_timer.is_enabled 0x40 0
  else 0xFF

/-- NoiseChannel::write (absolute address). -/
def write (c : NoiseChannel) (address : Nat) (value : Nat) : NoiseChannel :=
  if address = 0xFF20 then
    { c with length_timer := c.length_timer.set_initial_length (value &&& 0x3F) }
  else if address = 0xFF21 then
    let c := { c with volume_envelope := c.volume_envelope.update value }
    if c.volume_envelope.is_disabled then { c with enabled := false } else c
  else if address = 0xFF22 then { c with lsfr := c.lsfr.update value }
  else if address = 0xFF23 then
    let c :=
      if value &&& 0x80 ≠ 0 then
        { c with enabled := true, length_timer := c.length_timer.reset,
                 volume_envelope := c.volume_envelope.reset,
                 lsfr := c.lsfr.reset }
      else c
    { c with length_timer := c.length_timer.set_enabled (value &&& 0x40 ≠ 0) }
  else c

/-- NoiseChannel::is_enabled. -/
def is_enabled (c : NoiseChannel) : Bool := c.enabled

end NoiseChannel

/-- NR51 bitflags (gameboy/apu.rs): stereo mix mask, kept as the raw
byte, truncated to its 8 declared bits. -/
structure NR51 where
  raw : Nat
deriving DecidableEq, Repr

/-- APU state from gameboy/apu.rs (register-visible state; the audio
output thread, sample channel and mixer are external sinks and are not
embedded). -/
structure APU where
  enabled : Bool
  channel1 : PulseChannel
  channel2 : PulseChannel
  channel3 : WaveChannel
  channel4 : NoiseChannel
  apu_clock : Nat
  nr51 : NR51
  left_volume : Nat
  right_volume : Nat

namespace APU

/-- APU::new. -/
def new : APU :=
  { enabled := false, channel1 := PulseChannel.new,
    channel2 := PulseChannel.new, channel3 := WaveChannel.new,
    channel4 := NoiseChannel.new, apu_clock := 0, nr51 := ⟨0⟩,
    left_volume := 0, right_volume := 0 }

/-- APU::read (0xFF10-0xFF3F). -/
def read (a : APU) (address : Nat) : Nat :=
  if 0xFF10 ≤ address ∧ address ≤ 0xFF14 then
    a.channel1.read (address - 0xFF10)
  else if 0xFF16 ≤ address ∧ address ≤ 0xFF19 then
    a.channel2.read (address - 0xFF15)
  else if (0xFF1A ≤ address ∧ address ≤ 0xFF1E) ∨
          (0xFF30 ≤ address ∧ address ≤ 0xFF3F) then
    a.channel3.read address
  else if 0xFF20 ≤ address ∧ address ≤ 0xFF23 then
    a.channel4.read address
  else if address = 0xFF24 then
    ((a.left_volume &&& 0b111) <<< 4) ||| (a.right_volume &&& 0b111)
  else if address = 0xFF25 then a.nr51.raw
  else if address = 0xFF26 then
    ((cond a.enabled 1 0) <<< 7) ||| (cond a.channel1.is_enabled 1 0) |||
    ((cond a.channel2.is_enabled 1 0) <<< 1) |||
    ((cond a.channel3.is_enabled 1 0) <<< 2) |||
    ((cond a.channel4.is_enabled 1 0) <<< 3)
  else 0xFF

/-- APU::write (0xFF10-0xFF3F). -/
def write (a : APU) (address : Nat) (value : Nat) : APU :=
  if 0xFF10 ≤ address ∧ address ≤ 0xFF14 then
    { a with channel1 := a.channel1.write (address - 0xFF10) value }
  else if 0xFF16 ≤ address ∧ address ≤ 0xFF19 then
    { a with channel2 := a.channel2.write (address - 0xFF15) value }
  else if (0xFF1A ≤ address ∧ address ≤ 0xFF1E) ∨
          (0xFF30 ≤ address ∧ address ≤ 0xFF3F) then
    { a with channel3 := a.channel3.write address value }
  else if 0xFF20 ≤ address ∧ address ≤ 0xFF23 then
    { a with channel4 := a.channel4.write address value }
  else if address = 0xFF24 then
    { a with left_volume := (value >>> 4) &&& 0b111,
             right_volume := value &&& 0b111 }
  else if address = 0xFF25 then { a with nr51 := ⟨value &&& 0xFF⟩ }
  else if address = 0xFF26 then { a with enabled := value &&& 0x80 ≠ 0 }
  else a

end APU

/-! ## Cartridge and MBCs (gameboy/memory/cartridge.rs, memory/mbc.rs)

MBC3 with its real-time clock reads the host wall clock (chrono
Utc::now) and is therefore outside this pure embedding; no claim
involves MBC3.  The embedded variants are MBC1, MBC2 and NoMBC. -/

/-- BankType from mbc.rs (the RTC variant belongs to the non-embedded
MBC3). -/
inductive BankType where
  | RAM
  | ROM
deriving DecidableEq, Repr

/-- BankingMode enum from mbc.rs (MBC1). -/
inductive BankingMode where
  | Simple
  | Advanced
deriving DecidableEq, Repr

/-- MBC1 state from mbc.rs. -/
structure MBC1 where
  bank_1_register : Nat
  bank_2_register : Nat
  ram_enabled : Bool
  banking_mode : BankingMode
deriving DecidableEq, Repr

namespace MBC1

/-- MBC1::new(). -/
def new : MBC1 :=
  { bank_1_register := 1, bank_2_register := 0, ram_enabled := false,
    banking_mode := BankingMode.Simple }

/-- MBC1::translate_address. -/
def translate_address (m : MBC1) (address : Nat) : Option (Nat × BankType) :=
  if address ≤ 0x3FFF then
    let rom_bank := match m.banking_mode with
                    | BankingMode.Simple => 0
                    | BankingMode.Advanced => m.bank_2_register <<< 5
    some (rom_bank * 0x4000 + address, BankType.ROM)
  else if 0x4000 ≤ address ∧ address ≤ 0x7FFF then
    let rom_bank := m.bank_1_register ||| (m.bank_2_register <<< 5)
    some (rom_bank * 0x4000 + (address - 0x4000), BankType.ROM)
  else if (0xA000 ≤ address ∧ address ≤ 0xBFFF) ∧ m.ram_enabled then
    let ram_bank := match m.banking_mode with
                    | BankingMode.Simple => 0
                    | BankingMode.Advanced => m.bank_2_register
    some (ram_bank * 0x2000 + (address - 0xA000), BankType.RAM)
  else none

/-- MBC1::handle_control_write. -/
def handle_control_write (m : MBC1) (address value : Nat) : MBC1 :=
  if address ≤ 0x1FFF then
    { m with ram_enabled := (value &&& 0x0F) = 0x0A }
  else if 0x2000 ≤ address ∧ address ≤ 0x3FFF then
    { m with bank_1_register := max (value &&& 0x1F) 0x01 }
  else if 0x4000 ≤ address ∧ address ≤ 0x5FFF then
    { m with bank_2_register := value &&& 0x03 }
  else if 0x6000 ≤ address ∧ address ≤ 0x7FFF then
    if (value &&& 0x01) = 0x01 then
      { m with banking_mode := BankingMode.Advanced }
    else
      { m with banking_mode := BankingMode.Simple }
  else m

end MBC1

/-- MBC2 state from mbc.rs. -/
structure MBC2 where
  ram_enabled : Bool
  rom_bank : Nat
deriving DecidableEq, Repr

namespace MBC2

/-- MBC2::new(). -/
def new : MBC2 := { ram_enabled := false, rom_bank := 1 }

/-- MBC2::translate_address. -/
def translate_address (m : MBC2) (address : Nat) : Option (Nat × BankType) :=
  if address ≤ 0x3FFF then some (address, BankType.ROM)
  else if 0x4000 ≤ address ∧ address ≤ 0x7FFF then
    some (m.rom_bank * 0x4000 + (address - 0x4000), BankType.ROM)
  else if (0xA000 ≤ address ∧ address ≤ 0xBFFF) ∧ m.ram_enabled then
    some (address &&& 0x01FF, BankType.RAM)
  else none

/-- MBC2::handle_control_write. -/
def handle_control_write (m : MBC2) (address value : Nat) : MBC2 :=
  if address ≤ 0x3FFF then
    if address &&& 0x0100 = 0 then
      if value = 0x0A then { m with ram_enabled := true }
      else { m with ram_enabled := false }
    else
      match value &&& 0x0F with
      | 0 => { m with rom_bank := 1 }
      | bank => { m with rom_bank := bank }
  else m

end MBC2

/-- MBC variants embedded (mbc.rs trait objects; MBC3 carries the
wall-clock RTC and is outside the pure embedding). -/
inductive MBCKind where
  | mbc1 (m : MBC1)
  | mbc2 (m : MBC2)
  | nombc
deriving DecidableEq, Repr

namespace MBCKind

/-- Dispatch of MBC::translate_address over the embedded variants
(NoMBC arm from mbc.rs). -/
def translate_address (k : MBCKind) (address : Nat) :
    Option (Nat × BankType) :=
  match k with
  | mbc1 m => m.translate_address address
  | mbc2 m => m.translate_address address
  | nombc =>
      if address ≤ 0x7FFF then some (address, BankType.ROM)
      else if 0xA000 ≤ address ∧ address ≤ 0xBFFF then
        some (address - 0xA000, BankType.RAM)
      else none

/-- Dispatch of MBC::handle_control_write over the embedded variants. -/
def handle_control_write (k : MBCKind) (address value : Nat) : MBCKind :=
  match k with
  | mbc1 m => mbc1 (m.handle_control_write address value)
  | mbc2 m => mbc2 (m.handle_control_write address value)
  | nombc => nombc

end MBCKind

/-- Cartridge from cartridge.rs: immutable ROM bytes, mutable external
RAM and the MBC.  ROM and RAM are modelled as index functions plus
lengths; the save-file persister is host-side machinery outside the
core (spec section 1 exclusions) and is not embedded. -/
structure Cartridge where
  mbc : MBCKind
  rom : Nat → Nat
  romLen : Nat
  ram : Nat → Nat
  ramLen : Nat

namespace Cartridge

/-- Register::read for Cartridge. -/
def read (c : Cartridge) (address : Nat) : Nat :=
  match c.mbc.translate_address address with
  | some (physical_address, BankType.ROM) =>
      if c.romLen = 0 then 0xFF else c.rom (physical_address % c.romLen)
  | some (physical_address, BankType.RAM) =>
      if c.ramLen = 0 then 0xFF else c.ram (physical_address % c.ramLen)
  | none => 0xFF

/-- Register::write for Cartridge: control write to the MBC, then a RAM
store if the (updated) MBC maps the address to RAM. -/
def write (c : Cartridge) (address value : Nat) : Cartridge :=
  let c := { c with mbc := c.mbc.handle_control_write address value }
  match c.mbc.translate_address address with
  | some (physical_address, BankType.RAM) =>
      if c.ramLen = 0 then c
      else { c with ram := fun i => if i = physical_address % c.ramLen then value
                                    else c.ram i }
  | _ => c

end Cartridge

/-! ## PPU (gameboy/ppu.rs) -/

/-- Wrapping u16 subtraction (release-mode Rust semantics). -/
def wsub16 (a b : Nat) : Nat := (a + 65536 - b % 65536) % 65536

/-- Reversal of the 8 bits of a byte (u8::reverse_bits). -/
def reverseBits8 (n : Nat) : Nat :=
  (((n >>> 0) &&& 1) <<< 7) + (((n >>> 1) &&& 1) <<< 6) +
  (((n >>> 2) &&& 1) <<< 5) + (((n >>> 3) &&& 1) <<< 4) +
  (((n >>> 4) &&& 1) <<< 3) + (((n >>> 5) &&& 1) <<< 2) +
  (((n >>> 6) &&& 1) <<< 1) + (((n >>> 7) &&& 1) <<< 0)

/-- STAT bitflags from ppu.rs, one Bool per bit.  The declared flags are
LYC_INTERRUPT_ENABLE = bit 6, OAM_SCAN_INTERRUPT_ENABLE = bit 5,
VBLANK_INTERRUPT_ENABLE = bit 4, HBLANK_INTERRUPT_ENABLE = bit 3,
COINCIDENCE_FLAG = bit 2, MODE_1 = bit 1, MODE_0 = bit 0.  Bit 7 is not
a declared flag but the register is created with from_bits_retain, which
keeps it, so it is carried as an extra field. -/
structure STAT where
  bit7 : Bool
  lyc_interrupt_enable : Bool
  oam_scan_interrupt_enable : Bool
  vblank_interrupt_enable : Bool
  hblank_interrupt_enable : Bool
  coincidence_flag : Bool
  mode_1 : Bool
  mode_0 : Bool
deriving DecidableEq, Repr

namespace STAT

/-- STAT::empty(). -/
def empty : STAT := ⟨false, false, false, false, false, false, false, false⟩

/-- The LYC_INTERRUPT_ENABLE flag alone. -/
def LYC_INTERRUPT_ENABLE : STAT :=
  { empty with lyc_interrupt_enable := true }

/-- The OAM_SCAN_INTERRUPT_ENABLE flag alone. -/
def OAM_SCAN_INTERRUPT_ENABLE : STAT :=
  { empty with oam_scan_interrupt_enable := true }

/-- The VBLANK_INTERRUPT_ENABLE flag alone. -/
def VBLANK_INTERRUPT_ENABLE : STAT :=
  { empty with vblank_interrupt_enable := true }

/-- The HBLANK_INTERRUPT_ENABLE flag alone. -/
def HBLANK_INTERRUPT_ENABLE : STAT :=
  { empty with hblank_interrupt_enable := true }

/-- The COINCIDENCE_FLAG flag alone. -/
def COINCIDENCE_FLAG : STAT := { empty with coincidence_flag := true }

/-- The MODE_1 flag alone. -/
def MODE_1 : STAT := { empty with mode_1 := true }

/-- The MODE_0 flag alone. -/
def MODE_0 : STAT := { empty with mode_0 := true }

/-- bitflags union (insert / the | operator). -/
def union (a b : STAT) : STAT :=
  ⟨a.bit7 || b.bit7, a.lyc_interrupt_enable || b.lyc_interrupt_enable,
   a.oam_scan_interrupt_enable || b.oam_scan_interrupt_enable,
   a.vblank_interrupt_enable || b.vblank_interrupt_enable,
   a.hblank_interrupt_enable || b.hblank_interrupt_enable,
   a.coincidence_flag || b.coincidence_flag,
   a.mode_1 || b.mode_1, a.mode_0 || b.mode_0⟩

/-- bitflags remove (difference). -/
def diff (a b : STAT) : STAT :=
  ⟨a.bit7 && !b.bit7, a.lyc_interrupt_enable && !b.lyc_interrupt_enable,
   a.oam_scan_interrupt_enable && !b.oam_scan_interrupt_enable,
   a.vblank_interrupt_enable && !b.vblank_interrupt_enable,
   a.hblank_interrupt_enable && !b.hblank_interrupt_enable,
   a.coincidence_flag && !b.coincidence_flag,
   a.mode_1 && !b.mode_1, a.mode_0 && !b.mode_0⟩

/-- bitflags intersection (the &. operator). -/
def inter (a b : STAT) : STAT :=
  ⟨a.bit7 && b.bit7, a.lyc_interrupt_enable && b.lyc_interrupt_enable,
   a.oam_scan_interrupt_enable && b.oam_scan_interrupt_enable,
   a.vblank_interrupt_enable && b.vblank_interrupt_enable,
   a.hblank_interrupt_enable && b.hblank_interrupt_enable,
   a.coincidence_flag && b.coincidence_flag,
   a.mode_1 && b.mode_1, a.mode_0 && b.mode_0⟩

/-- bitflags is_empty(). -/
def isEmpty (a : STAT) : Bool :=
  !a.bit7 && !a.lyc_interrupt_enable && !a.oam_scan_interrupt_enable &&
  !a.vblank_interrupt_enable && !a.hblank_interrupt_enable &&
  !a.coincidence_flag && !a.mode_1 && !a.mode_0

/-- bitflags bits(): the underlying byte. -/
def bits (a : STAT) : Nat :=
  (cond a.bit7 128 0) + (cond a.lyc_interrupt_enable 64 0) +
  (cond a.oam_scan_interrupt_enable 32 0) +
  (cond a.vblank_interrupt_enable 16 0) +
  (cond a.hblank_interrupt_enable 8 0) + (cond a.coincidence_flag 4 0) +
  (cond a.mode_1 2 0) + (cond a.mode_0 1 0)

end STAT

/-- LCDC bitflags from ppu.rs: LCD_DISPLAY_ENABLE = bit 7,
WINDOW_TILEMAP_SELECT = bit 6, WINDOW_DISPLAY_ENABLE = bit 5,
TILE_ADDRESSING_MODE = bit 4, BG_TILEMAP_SELECT = bit 3,
SPRITE_DOUBLE_SIZE = bit 2, SPRITE_DISPLAY_ENABLE = bit 1,
BGW_ENABLE = bit 0. -/
structure LCDC where
  lcd_display_enable : Bool
  window_tilemap_select : Bool
  window_display_enable : Bool
  tile_addressing_mode : Bool
  bg_tilemap_select : Bool
  sprite_double_size : Bool
  sprite_display_enable : Bool
  bgw_enable : Bool
deriving DecidableEq, Repr

namespace LCDC

/-- LCDC::empty(). -/
def empty : LCDC := ⟨false, false, false, false, false, false, false, false⟩

/-- LCDC::from_bits_truncate (all 8 bits are declared flags). -/
def from_bits_truncate (n : Nat) : LCDC :=
  ⟨n.testBit 7, n.testBit 6, n.testBit 5, n.testBit 4,
   n.testBit 3, n.testBit 2, n.testBit 1, n.testBit 0⟩

/-- bitflags bits(). -/
def bits (a : LCDC) : Nat :=
  (cond a.lcd_display_enable 128 0) + (cond a.window_tilemap_select 64 0) +
  (cond a.window_display_enable 32 0) + (cond a.tile_addressing_mode 16 0) +
  (cond a.bg_tilemap_select 8 0) + (cond a.sprite_double_size 4 0) +
  (cond a.sprite_display_enable 2 0) + (cond a.bgw_enable 1 0)

end LCDC

/-- SpriteAttributes bitflags from ppu.rs: PRIORITY = bit 7,
Y_FLIP = bit 6, X_FLIP = bit 5, DMG_PALETTE = bit 4. -/
structure SpriteAttributes where
  priority : Bool
  y_flip : Bool
  x_flip : Bool
  dmg_palette : Bool
deriving DecidableEq, Repr

/-- SpriteAttributes::from_bits_truncate. -/
def SpriteAttributes.from_bits_truncate (n : Nat) : SpriteAttributes :=
  ⟨n.testBit 7, n.testBit 6, n.testBit 5, n.testBit 4⟩

/-- Sprite record from ppu.rs. -/
structure Sprite where
  y : Nat
  x : Nat
  tile_index : Nat
  attributes : SpriteAttributes
deriving DecidableEq, Repr

/-- Palette enum from ppu.rs. -/
inductive Palette where
  | Bgp
  | Obp0
  | Obp1
deriving DecidableEq, Repr

/-- Pixel record from ppu.rs. -/
structure Pixel where
  color : Nat
  palette : Palette
  priority : Bool
deriving DecidableEq, Repr

/-- Pixel::default(). -/
def Pixel.default : Pixel :=
  { color := 0, palette := Palette.Obp0, priority := false }

/-- Mode enum from ppu.rs. -/
inductive Mode where
  | OAMScan
  | Drawing
  | HBlank
  | VBlank
deriving DecidableEq, Repr

/-- LcdState enum from ppu.rs. -/
inductive LcdState where
  | Enabled
  | Disabled
deriving DecidableEq, Repr

/-- Operation enum from ppu.rs (the PPU micro-step queue alphabet). -/
inductive PPU.Operation where
  | NewFrame
  | NewScanline
  | ModeChange (mode : Mode)
  | OAMSearch (index : Nat)
  | FetchBackgroundPixels
  | FetchWindowPixels
  | FetchSpritePixels (sprite : Sprite)
  | PushBackgroundPixels (pixels : List Pixel)
  | PopPixels
  | CheckPixel
  | Sleep (cycles : Nat)
deriving DecidableEq, Repr

/-- Operation::cycles from ppu.rs. -/
def PPU.Operation.cycles : PPU.Operation → Nat
  | PPU.Operation.NewFrame => 0
  | PPU.Operation.NewScanline => 0
  | PPU.Operation.ModeChange _ => 0
  | PPU.Operation.OAMSearch _ => 2
  | PPU.Operation.FetchBackgroundPixels => 8
  | PPU.Operation.FetchWindowPixels => 8
  | PPU.Operation.FetchSpritePixels _ => 6
  | PPU.Operation.PushBackgroundPixels _ => 0
  | PPU.Operation.PopPixels => 0
  | PPU.Operation.CheckPixel => 0
  | PPU.Operation.Sleep cycles => cycles

/-- InternalRegisters from ppu.rs. -/
structure InternalRegisters where
  ly : Nat
  lyc : Nat
  wx : Nat
  wy : Nat
  scx : Nat
  scy : Nat
  stat : STAT
  lcdc : LCDC
  obp0 : Nat
  obp1 : Nat
  bgp : Nat
deriving DecidableEq, Repr

namespace InternalRegisters

/-- InternalRegisters::new(): STAT starts as from_bits_retain(0b11000000),
i.e. bit 7 and the LYC-interrupt-enable bit (bit 6) set. -/
def new : InternalRegisters :=
  { ly := 0, lyc := 0, wx := 0, wy := 0, scx := 0, scy := 0,
    stat := { STAT.empty with bit7 := true, lyc_interrupt_enable := true },
    lcdc := LCDC.empty, obp0 := 0, obp1 := 0, bgp := 0 }

/-- Register::read for InternalRegisters (register addresses from
ppu.rs; anything else reads 0xFF). -/
def read (r : InternalRegisters) (address : Nat) : Nat :=
  if address = 0xFF44 then r.ly
  else if address = 0xFF45 then r.lyc
  else if address = 0xFF4A then r.wy
  else if address = 0xFF4B then r.wx
  else if address = 0xFF43 then r.scx
  else if address = 0xFF42 then r.scy
  else if address = 0xFF41 then r.stat.bits
  else if address = 0xFF40 then r.lcdc.bits
  else if address = 0xFF48 then r.obp0
  else if address = 0xFF49 then r.obp1
  else if address = 0xFF47 then r.bgp
  else 0xFF

/-- Register::write for InternalRegisters.  The STAT arm computes
from_bits_retain((stat.bits and 0xC7) or (value and 0x38)), written here
field by field: bits 7, 6, 2, 1, 0 (mask 0xC7) are kept from the old
value and bits 5, 4, 3 (mask 0x38) are taken from the written byte. -/
def write (r : InternalRegisters) (address value : Nat) : InternalRegisters :=
  if address = 0xFF45 then { r with lyc := value }
  else if address = 0xFF4A then { r with wy := value }
  else if address = 0xFF4B then { r with wx := value }
  else if address = 0xFF43 then { r with scx := value }
  else if address = 0xFF42 then { r with scy := value }
  else if address = 0xFF41 then
    { r with stat := { r.stat with oam_scan_interrupt_enable := value.testBit 5,
                                   vblank_interrupt_enable := value.testBit 4,
                                   hblank_interrupt_enable := value.testBit 3 } }
  else if address = 0xFF40 then
    { r with lcdc := LCDC.from_bits_truncate value }
  else if address = 0xFF48 then { r with obp0 := value }
  else if address = 0xFF49 then { r with obp1 := value }
  else if address = 0xFF47 then { r with bgp := value }
  else r

end InternalRegisters

/-- Display sink log: WebviewDisplay is an external collaborator (spec
section 6); its push_pixel and present calls are recorded here. -/
structure DisplayLog where
  pixels : List (Nat × Nat × Nat)
  presents : Nat
deriving DecidableEq, Repr

/-- PPU state from ppu.rs.  VRAM and OAM are index functions. -/
structure PPU where
  lcd_state : LcdState
  pending_interrupts : Option Interrupt
  vram : Nat → Nat
  oam : Nat → Nat
  clock : Nat
  scanline_clock : Nat
  display : DisplayLog
  operation_queue : List PPU.Operation
  mode : Mode
  sprite_buffer : List Sprite
  bg_fifo : List Pixel
  sprite_fifo : List Pixel
  lx : Nat
  wlc : Nat
  window_mode : Bool
  active_interrupts : STAT
  registers : InternalRegisters
  panicked : Bool

namespace PPU

/-- PPU::new. -/
def new : PPU :=
  { lcd_state := LcdState.Disabled, pending_interrupts := none,
    vram := fun _ => 0, oam := fun _ => 0, clock := 0, scanline_clock := 0,
    display := ⟨[], 0⟩, operation_queue := [Operation.NewFrame],
    mode := Mode.OAMScan, sprite_buffer := [], bg_fifo := [],
    sprite_fifo := [], lx := 0, wlc := 0, window_mode := false,
    active_interrupts := STAT.empty, registers := InternalRegisters.new,
    panicked := false }

/-- Register::read for PPU. -/
def read (p : PPU) (address : Nat) : Nat :=
  if 0xFF40 ≤ address ∧ address ≤ 0xFF4B then p.registers.read address
  else if 0x8000 ≤ address ∧ address ≤ 0x9FFF then p.vram (address - 0x8000)
  else if 0xFE00 ≤ address ∧ address ≤ 0xFE9F then p.oam (address - 0xFE00)
  else 0xFF

/-- PPU::fetch_sprite: read a 4-byte OAM record. -/
def fetch_sprite (p : PPU) (address : Nat) : Sprite :=
  { y := p.read address, x := p.read (address + 1),
    tile_index := p.read (address + 2),
    attributes := SpriteAttributes.from_bits_truncate (p.read (address + 3)) }

/-- PPU::enabled: LCDC bit 7. -/
def enabled (p : PPU) : Bool := p.registers.lcdc.lcd_display_enable

/-- PPU::sprite_height. -/
def sprite_height (p : PPU) : Nat :=
  if p.registers.lcdc.sprite_double_size then 16 else 8

/-- PPU::get_bg_tile_number. -/
def get_bg_tile_number (p : PPU) : Nat :=
  let tilemap_base_address : Nat :=
    if p.registers.lcdc.bg_tilemap_select then 0x9C00 else 0x9800
  let x_coordinate := ((p.registers.scx + p.lx) / 8) &&& 0x1F
  let y_coordinate := (((p.registers.ly + p.registers.scy) / 8) &&& 0x1F) <<< 5
  p.read (tilemap_base_address + x_coordinate + y_coordinate)

/-- PPU::fetch_bg_tile. -/
def fetch_bg_tile (p : PPU) (tile_number : Nat) : Nat × Nat :=
  let base_address : Nat :=
    if tile_number &&& 0x80 = 0 ∧ ¬p.registers.lcdc.tile_addressing_mode
    then 0x8000 ||| 0x1000 else 0x8000
  let tile_offset := tile_number <<< 4
  let y_offset := (wrap16 (p.registers.ly + p.registers.scy) % 8) <<< 1
  let tile_address := base_address + tile_offset + y_offset
  (p.read tile_address, p.read (wrap16 (tile_address + 1)))

/-- PPU::get_window_tile_number. -/
def get_window_tile_number (p : PPU) : Nat :=
  let tilemap_base_address : Nat :=
    if p.registers.lcdc.window_tilemap_select then 0x9C00 else 0x9800
  let window_x := wsub16 (p.lx + 7) p.registers.wx
  let x_coordinate := (window_x / 8) &&& 0x1F
  let y_coordinate := ((p.wlc / 8) &&& 0x1F) <<< 5
  p.read (x_coordinate ||| y_coordinate ||| tilemap_base_address)

/-- PPU::fetch_window_tile. -/
def fetch_window_tile (p : PPU) (tile_number : Nat) : Nat × Nat :=
  let base_address : Nat :=
    if tile_number &&& 0x80 = 0 ∧ ¬p.registers.lcdc.tile_addressing_mode
    then 0x8000 ||| 0x1000 else 0x8000
  let tile_offset := tile_number <<< 4
  let y_offset := (p.wlc % 8) <<< 1
  let tile_address := base_address + tile_offset + y_offset
  (p.read tile_address, p.read (wrap16 (tile_address + 1)))

/-- PPU::fetch_sprite_tile. -/
def fetch_sprite_tile (p : PPU) (sprite : Sprite) : Nat × Nat :=
  let flipped := sprite.attributes.y_flip
  let height := p.sprite_height
  let ly_offset := wsub16 (p.registers.ly + 16) sprite.y
  let tile_index :=
    if height = 16 then sprite.tile_index &&& 0xFE else sprite.tile_index
  let mem_offset :=
    if flipped then wrap16 (2 * wsub16 (wsub16 height ly_offset) 1)
    else wrap16 (2 * ly_offset)
  let tile_address := wrap16 (0x8000 + tile_index * 16 + mem_offset)
  let low := p.read tile_address
  let high := p.read (wrap16 (tile_address + 1))
  if sprite.attributes.x_flip then (reverseBits8 low, reverseBits8 high)
  else (low, high)

/-- PPU::generate_bg_pixels: 8 background pixels from a tile-data byte
pair. -/
def generate_bg_pixels (low high : Nat) : List Pixel :=
  (List.range 8).map (fun i =>
    let low_bit := (low >>> (7 - i)) &&& 1
    let high_bit := (high >>> (7 - i)) &&& 1
    { color := (high_bit <<< 1) ||| low_bit, palette := Palette.Bgp,
      priority := false })

/-- PPU::generate_obj_pixels. -/
def generate_obj_pixels (low high : Nat) (sprite : Sprite) : List Pixel :=
  (List.range 8).map (fun i =>
    let low_bit := (low >>> (7 - i)) &&& 1
    let high_bit := (high >>> (7 - i)) &&& 1
    { color := (high_bit <<< 1) ||| low_bit,
      palette := if sprite.attributes.dmg_palette then Palette.Obp1
                 else Palette.Obp0,
      priority := sprite.attributes.priority })

/-- PPU::enable_stat_interrupt with rising-edge detection of the STAT
line. -/
def enable_stat_interrupt (p : PPU) (interrupt : STAT) : PPU :=
  let current_stat_line :=
    !(STAT.inter p.active_interrupts p.registers.stat).isEmpty
  let p := { p with active_interrupts :=
                      STAT.union p.active_interrupts interrupt }
  let modified_stat_line :=
    !(STAT.inter p.active_interrupts p.registers.stat).isEmpty
  if !current_stat_line && modified_stat_line then
    { p with pending_interrupts :=
               some ((p.pending_interrupts.getD Interrupt.empty).insert
                       Interrupt.LCD) }
  else p

/-- PPU::disable_stat_interrupt. -/
def disable_stat_interrupt (p : PPU) (interrupt : STAT) : PPU :=
  { p with active_interrupts := STAT.diff p.active_interrupts interrupt }

/-- PPU::check_lyc. -/
def check_lyc (p : PPU) : PPU :=
  if p.registers.ly = p.registers.lyc then
    let p := { p with registers :=
                 { p.registers with stat :=
                     { p.registers.stat with coincidence_flag := true } } }
    p.enable_stat_interrupt STAT.LYC_INTERRUPT_ENABLE
  else
    let p := { p with registers :=
                 { p.registers with stat :=
                     { p.registers.stat with coincidence_flag := false } } }
    p.disable_stat_interrupt STAT.LYC_INTERRUPT_ENABLE

/-- PPU::reset_scanline. -/
def reset_scanline (p : PPU) (scanline : Nat) : PPU :=
  let p := { p with registers := { p.registers with ly := scanline }, lx := 0 }
  let p := p.check_lyc
  let p := if p.window_mode then { p with wlc := wrap8 (p.wlc + 1) } else p
  { p with window_mode := false, scanline_clock := 0, sprite_buffer := [],
           sprite_fifo := [], bg_fifo := [] }

/-- Register::write for PPU. -/
def write (p : PPU) (address value : Nat) : PPU :=
  if address = 0xFF41 then
    let current_stat_line :=
      !(STAT.inter p.active_interrupts p.registers.stat).isEmpty
    let p := { p with registers := p.registers.write address value }
    let modified_stat_line :=
      !(STAT.inter p.active_interrupts p.registers.stat).isEmpty
    if !current_stat_line && modified_stat_line then
      { p with pending_interrupts :=
                 some ((p.pending_interrupts.getD Interrupt.empty).insert
                         Interrupt.LCD) }
    else p
  else if address = 0xFF45 then
    let p := { p with registers := p.registers.write address value }
    if p.lcd_state = LcdState.Enabled then p.check_lyc else p
  else if 0xFF40 ≤ address ∧ address ≤ 0xFF4B then
    { p with registers := p.registers.write address value }
  else if 0x8000 ≤ address ∧ address ≤ 0x9FFF then
    { p with vram := fun i => if i = address - 0x8000 then value else p.vram i }
  else if 0xFE00 ≤ address ∧ address ≤ 0xFE9F then
    { p with oam := fun i => if i = address - 0xFE00 then value else p.oam i }
  else p

/-- PPU::retrieve_interrupts. -/
def retrieve_interrupts (p : PPU) : Option Interrupt × PPU :=
  (p.pending_interrupts, { p with pending_interrupts := none })

/-- Queue append helper (VecDeque::push_back). -/
def pushOp (p : PPU) (op : Operation) : PPU :=
  { p with operation_queue := p.operation_queue ++ [op] }

/-- Queue extend helper (VecDeque::extend). -/
def extendOps (p : PPU) (ops : List Operation) : PPU :=
  { p with operation_queue := p.operation_queue ++ ops }

/-- Effects of one dequeued PPU operation (the match body of the while
loop in PPU::tick); the pop and clock bookkeeping happen in tickOps. -/
def processOp (op : Operation) (p : PPU) : PPU :=
  match op with
  | Operation.NewFrame =>
      let p := { p with wlc := 0 }
      let p := p.reset_scanline 0
      p.pushOp (Operation.ModeChange Mode.OAMScan)
  | Operation.NewScanline =>
      let p := p.reset_scanline (wrap8 (p.registers.ly + 1))
      if p.registers.ly < 144 then
        p.pushOp (Operation.ModeChange Mode.OAMScan)
      else if p.registers.ly = 144 then
        p.pushOp (Operation.ModeChange Mode.VBlank)
      else if 145 ≤ p.registers.ly ∧ p.registers.ly < 154 then
        p.extendOps [Operation.Sleep 456, Operation.NewScanline]
      else p.pushOp Operation.NewFrame
  | Operation.ModeChange mode =>
      let p := p.enable_stat_interrupt
        (match mode with
         | Mode.HBlank => STAT.HBLANK_INTERRUPT_ENABLE
         | Mode.VBlank => STAT.union STAT.VBLANK_INTERRUPT_ENABLE
                            STAT.OAM_SCAN_INTERRUPT_ENABLE
         | Mode.OAMScan => STAT.OAM_SCAN_INTERRUPT_ENABLE
         | Mode.Drawing => STAT.empty)
      let p := p.disable_stat_interrupt
        (match p.mode with
         | Mode.HBlank => STAT.HBLANK_INTERRUPT_ENABLE
         | Mode.VBlank => STAT.VBLANK_INTERRUPT_ENABLE
         | Mode.OAMScan => STAT.OAM_SCAN_INTERRUPT_ENABLE
         | Mode.Drawing => STAT.empty)
      let p :=
        match mode with
        | Mode.HBlank =>
            { p with registers := { p.registers with stat :=
                { p.registers.stat with mode_0 := false, mode_1 := false } } }
        | Mode.VBlank =>
            { p with registers := { p.registers with stat :=
                { p.registers.stat with mode_1 := false, mode_0 := true } } }
        | Mode.OAMScan =>
            { p with registers := { p.registers with stat :=
                { p.registers.stat with mode_0 := false, mode_1 := true } } }
        | Mode.Drawing =>
            { p with registers := { p.registers with stat :=
                { p.registers.stat with mode_0 := true, mode_1 := true } } }
      let p := { p with mode := mode }
      match mode with
      | Mode.OAMScan =>
          let p := p.extendOps ((List.range 40).map Operation.OAMSearch)
          p.pushOp (Operation.ModeChange Mode.Drawing)
      | Mode.Drawing =>
          p.extendOps [Operation.Sleep 12, Operation.CheckPixel]
      | Mode.HBlank =>
          let remaining_cycles := wsub32 456 p.scanline_clock
          { p with operation_queue :=
              [Operation.Sleep remaining_cycles, Operation.NewScanline] }
      | Mode.VBlank =>
          let p := { p with display :=
                       { p.display with presents := p.display.presents + 1 } }
          let pend :=
            some ((p.pending_interrupts.getD Interrupt.empty).insert
                    Interrupt.VBLANK)
          let p := { p with pending_interrupts := pend }
          { p with operation_queue :=
              [Operation.Sleep 456, Operation.NewScanline] }
  | Operation.OAMSearch index =>
      if 10 ≤ p.sprite_buffer.length then p
      else
        let base_address := index * 4 + 0xFE00
        let sprite := p.fetch_sprite base_address
        if sprite.y ≤ wrap8 (p.registers.ly + 16) ∧
           wrap8 (p.registers.ly + 16) < wrap8 (sprite.y + p.sprite_height) then
          { p with sprite_buffer := p.sprite_buffer ++ [sprite] }
        else p
  | Operation.FetchBackgroundPixels =>
      let tile_number := p.get_bg_tile_number
      let td := p.fetch_bg_tile tile_number
      let pixels := generate_bg_pixels td.1 td.2
      p.pushOp (Operation.PushBackgroundPixels pixels)
  | Operation.FetchWindowPixels =>
      let tile_number := p.get_window_tile_number
      let td := p.fetch_window_tile tile_number
      let pixels := generate_bg_pixels td.1 td.2
      p.pushOp (Operation.PushBackgroundPixels pixels)
  | Operation.FetchSpritePixels sprite =>
      let td := p.fetch_sprite_tile sprite
      let pixels := generate_obj_pixels td.1 td.2 sprite
      let filled : List Pixel :=
        p.sprite_fifo ++ List.replicate (8 - p.sprite_fifo.length) Pixel.default
      let offscreen_pixels : Nat := if sprite.x < 8 then 8 - sprite.x else 0
      let merged : List Pixel :=
        filled.mapIdx (fun j px =>
          if j + offscreen_pixels < 8 ∧ px.color = 0 then
            pixels.getD (j + offscreen_pixels) Pixel.default
          else px)
      let q : PPU := { p with sprite_fifo := merged }
      if q.bg_fifo.length < 6 ∧ q.sprite_fifo.isEmpty = true then
        q.pushOp (Operation.Sleep (6 - q.bg_fifo.length))
      else q
  | Operation.PushBackgroundPixels pixels =>
      let p :=
        if !p.bg_fifo.isEmpty then
          p.pushOp (Operation.PushBackgroundPixels pixels)
        else p
      let p := { p with bg_fifo := p.bg_fifo ++ pixels }
      p.pushOp Operation.PopPixels
  | Operation.PopPixels =>
      if p.bg_fifo.isEmpty then p
      else
        let p :=
          if p.lx = 0 ∧ ¬p.window_mode then
            let n := p.registers.scx % 8
            let p := { p with bg_fifo := p.bg_fifo.drop n }
            p.extendOps (List.replicate n (Operation.Sleep 1))
          else p
        match p.bg_fifo with
        | [] => { p with panicked := true }
        | bg_pixel :: bgrest =>
          let p := { p with bg_fifo := bgrest }
          let popped : Option Pixel × PPU :=
            match p.sprite_fifo with
            | [] => (none, p)
            | sp :: rest => (some sp, { p with sprite_fifo := rest })
          let p := popped.2
          let merged_pixel :=
            match popped.1 with
            | some sprite_pixel =>
                if ¬p.registers.lcdc.bgw_enable then sprite_pixel
                else if sprite_pixel.color = 0 then bg_pixel
                else if sprite_pixel.priority ∧ bg_pixel.color = 0 then
                  sprite_pixel
                else if sprite_pixel.priority then bg_pixel
                else sprite_pixel
            | none =>
                if ¬p.registers.lcdc.bgw_enable then Pixel.default
                else bg_pixel
          let palette :=
            match merged_pixel.palette with
            | Palette.Bgp => p.registers.bgp
            | Palette.Obp0 => p.registers.obp0
            | Palette.Obp1 => p.registers.obp1
          let color_shift := merged_pixel.color * 2
          let color := ((3 <<< color_shift) &&& palette) >>> color_shift
          let p := { p with display :=
              { p.display with pixels :=
                  p.display.pixels ++ [(p.lx, p.registers.ly, color)] } }
          let p := { p with lx := wrap8 (p.lx + 1) }
          p.pushOp Operation.CheckPixel
  | Operation.CheckPixel =>
      if 160 ≤ p.lx then p.pushOp (Operation.ModeChange Mode.HBlank)
      else
        let sprites_enabled := p.registers.lcdc.sprite_display_enable
        let p := p.sprite_buffer.foldl (fun p sprite =>
          if (sprite.x - 8 = p.lx) ∧ sprites_enabled then
            p.pushOp (Operation.FetchSpritePixels sprite)
          else p) p
        let window_enabled := p.registers.lcdc.window_display_enable
        if ¬p.window_mode ∧ window_enabled ∧
           p.registers.wx ≤ wrap8 (p.lx + 7) ∧ p.registers.wy ≤ p.registers.ly
        then
          let p := { p with window_mode := true, bg_fifo := [],
                            operation_queue := [] }
          p.pushOp Operation.CheckPixel
        else if p.bg_fifo.isEmpty ∧ p.window_mode then
          p.pushOp Operation.FetchWindowPixels
        else if p.bg_fifo.isEmpty then
          p.pushOp Operation.FetchBackgroundPixels
        else p.pushOp Operation.PopPixels
  | Operation.Sleep _ => p

/-- Fuelled form of the while loop in PPU::tick: process queued
operations while the front operation's cycle cost is strictly below the
accumulated clock.  An empty queue would panic in the source (expect /
debug_assert); it sets the panicked flag here. -/
def tickOps : Nat → PPU → PPU
  | 0, p => p
  | fuel + 1, p =>
      match p.operation_queue with
      | [] => { p with panicked := true }
      | op :: rest =>
          if op.cycles < p.clock then
            tickOps fuel
              (processOp op
                { p with operation_queue := rest,
                         clock := p.clock - op.cycles,
                         scanline_clock := p.scanline_clock + op.cycles })
          else p

/-- PPU::tick (Register::tick for PPU), with explicit fuel bounding the
operation-processing loop. -/
def tick (fuel : Nat) (p : PPU) (cycles : Nat) : PPU :=
  match p.lcd_state with
  | LcdState.Enabled =>
      if ¬p.enabled then
        let p := { p with mode := Mode.HBlank }
        let p := { p with registers := { p.registers with stat :=
            { p.registers.stat with mode_0 := false, mode_1 := false } } }
        let p := p.disable_stat_interrupt
          (STAT.union STAT.OAM_SCAN_INTERRUPT_ENABLE
             STAT.VBLANK_INTERRUPT_ENABLE)
        { p with operation_queue := [], lcd_state := LcdState.Disabled }
      else
        tickOps fuel { p with clock := p.clock + cycles }
  | LcdState.Disabled =>
      if p.enabled then
        let newQueue : List Operation :=
          [Operation.ModeChange Mode.Drawing, Operation.Sleep 2]
        let p := { p with operation_queue := newQueue,
                          lcd_state := LcdState.Enabled }
        let p := { p with registers := { p.registers with ly := 0 } }
        p.check_lyc
      else p

end PPU

/-! ## Memory bus (gameboy/memory.rs) -/

/-- Modelled from the spec: the 256-byte boot ROM blob pulled in with
include_bytes (dmg_boot.bin) is not present in the source tree under
src/.  The spec only says a 256-byte blob is visible at 0x0000-0x00FF
until 0xFF50 is written; its contents are opaque, so it is modelled as
an arbitrary fixed byte function.  No claim depends on its contents. -/
def BOOT_ROM : Nat → Nat := fun _ => 0

/-- DMAState from memory.rs: Active(source, dest, remaining) or
Inactive. -/
inductive DMAState where
  | Active (orig dest : Nat) (remaining : Nat)
  | Inactive
deriving DecidableEq, Repr

/-- MemoryBus from memory.rs.  internal_memory is the 16 KiB array
backing 0xC000-0xFFFF, modelled as an index function. -/
structure MemoryBus where
  boot_mode : Bool
  cartridge : Cartridge
  internal_memory : Nat → Nat
  dma_state : DMAState
  pending_cycles : Int
  timer : Timer
  joypad : Joypad
  serial : Serial
  apu : APU
  ppu : PPU

namespace MemoryBus

/-- MemoryBusBuilder::build: boot mode on, zeroed internal memory, DMA
inactive. -/
def build (cartridge : Cartridge) (timer : Timer) (joypad : Joypad)
    (serial : Serial) (apu : APU) (ppu : PPU) : MemoryBus :=
  { boot_mode := true, cartridge := cartridge,
    internal_memory := fun _ => 0, dma_state := DMAState.Inactive,
    pending_cycles := 0, timer := timer, joypad := joypad, serial := serial,
    apu := apu, ppu := ppu }

/-- MemoryBus::raw_read: the plain address decode (match arms in source
order; an earlier arm shadows the later 0xC000-0xFFFF catch-all). -/
def raw_read (b : MemoryBus) (address : Nat) : Nat :=
  if address ≤ 0x00FF ∧ b.boot_mode then BOOT_ROM address
  else if address ≤ 0x7FFF then b.cartridge.read address
  else if address ≤ 0x9FFF then b.ppu.read address
  else if address ≤ 0xBFFF then b.cartridge.read address
  else if 0xFE00 ≤ address ∧ address ≤ 0xFE9F then b.ppu.read address
  else if address = 0xFF01 ∨ address = 0xFF02 then b.serial.read address
  else if 0xFF04 ≤ address ∧ address ≤ 0xFF07 then b.timer.read address
  else if 0xFF40 ≤ address ∧ address ≤ 0xFF4B then b.ppu.read address
  else if address = 0xFF00 then b.joypad.read
  else if (0xFF10 ≤ address ∧ address ≤ 0xFF3F) ∧ AUDIO_ENABLED then
    b.apu.read address
  else if 0xC000 ≤ address ∧ address ≤ 0xFFFF then
    b.internal_memory (address - 0xC000)
  else 0

/-- MemoryController::read_byte for MemoryBus: the DMA-gated read. -/
def read_byte (b : MemoryBus) (address : Nat) : Nat :=
  match b.dma_state with
  | DMAState.Inactive => b.raw_read address
  | DMAState.Active _ _ _ =>
      if address = 0xFF46 then b.raw_read address
      else if 0xFF80 ≤ address ∧ address ≤ 0xFFFE then b.raw_read address
      else if 0xFE00 ≤ address ∧ address ≤ 0xFE9F then b.raw_read address
      else 0x00

/-- MemoryBus::raw_write without the trailing interrupt aggregation
(the match arms of raw_write, in source order). -/
def raw_write_base (b : MemoryBus) (address value : Nat) : MemoryBus :=
  if address = 0xFF50 ∧ b.boot_mode then { b with boot_mode := false }
  else if address ≤ 0x7FFF then
    { b with cartridge := b.cartridge.write address value }
  else if address ≤ 0x9FFF then { b with ppu := b.ppu.write address value }
  else if address ≤ 0xBFFF then
    { b with cartridge := b.cartridge.write address value }
  else if address = 0xFF01 ∨ address = 0xFF02 then
    { b with serial := b.serial.write address value }
  else if (0xFF10 ≤ address ∧ address ≤ 0xFF3F) ∧ AUDIO_ENABLED then
    { b with apu := b.apu.write address value }
  else if address = 0xFF46 then
    { b with dma_state := DMAState.Active (value <<< 8) 0xFE00 160,
             internal_memory := fun i => if i = address - 0xC000 then value
                                         else b.internal_memory i }
  else if 0xFF04 ≤ address ∧ address ≤ 0xFF07 then
    { b with timer := b.timer.write address value }
  else if 0xFE00 ≤ address ∧ address ≤ 0xFE9F then
    { b with ppu := b.ppu.write address value }
  else if 0xFF40 ≤ address ∧ address ≤ 0xFF4B then
    { b with ppu := b.ppu.write address value }
  else if address = 0xFF00 then
    { b with joypad := b.joypad.write value }
  else if 0xC000 ≤ address ∧ address ≤ 0xFFFF then
    { b with internal_memory := fun i => if i = address - 0xC000 then value
                                         else b.internal_memory i }
  else b

/-- MemoryController::write_byte specialised to address 0xFF0F: 0xFF0F
is outside every excepted range of the DMA gate, so the write is a plain
raw_write when DMA is inactive and is dropped while DMA is active, and
raw_write at 0xFF0F skips the interrupt aggregation.  This unfolding of
write_byte at the fixed address breaks the source's benign recursion
(raw_write -> check_interrupts -> trigger_interrupt -> write_byte 0xFF0F). -/
def write_IF (b : MemoryBus) (value : Nat) : MemoryBus :=
  match b.dma_state with
  | DMAState.Inactive => b.raw_write_base 0xFF0F value
  | DMAState.Active _ _ _ => b

/-- MemoryController::trigger_interrupt (default trait method): OR the
bits into the IF register through the DMA-gated accessors. -/
def trigger_interrupt (b : MemoryBus) (interrupt : Interrupt) : MemoryBus :=
  let if_register :=
    (Interrupt.from_bits_truncate (b.read_byte 0xFF0F)).insert interrupt
  b.write_IF if_register.bits

/-- MemoryBus::check_interrupts: drain every peripheral's pending
interrupts and OR them into IF if any. -/
def check_interrupts (b : MemoryBus) : MemoryBus :=
  let rt := b.timer.retrieve_interrupts
  let b := { b with timer := rt.2 }
  let interrupts := (rt.1.getD Interrupt.empty)
  let rj := b.joypad.retrieve_interrupts
  let b := { b with joypad := rj.2 }
  let interrupts := interrupts.insert (rj.1.getD Interrupt.empty)
  let rs := b.serial.retrieve_interrupts
  let b := { b with serial := rs.2 }
  let interrupts := interrupts.insert (rs.1.getD Interrupt.empty)
  let rp := b.ppu.retrieve_interrupts
  let b := { b with ppu := rp.2 }
  let interrupts := interrupts.insert (rp.1.getD Interrupt.empty)
  if !interrupts.isEmpty then b.trigger_interrupt interrupts else b

/-- MemoryBus::raw_write: the decode arms followed by interrupt
aggregation for every address other than 0xFF0F. -/
def raw_write (b : MemoryBus) (address value : Nat) : MemoryBus :=
  let b := b.raw_write_base address value
  if address ≠ 0xFF0F then b.check_interrupts else b

/-- MemoryController::write_byte for MemoryBus: the DMA-gated write. -/
def write_byte (b : MemoryBus) (address value : Nat) : MemoryBus :=
  match b.dma_state with
  | DMAState.Inactive => b.raw_write address value
  | DMAState.Active _ _ _ =>
      if 0xFF80 ≤ address ∧ address ≤ 0xFFFE then b.raw_write address value
      else if 0xFE00 ≤ address ∧ address ≤ 0xFE9F then
        b.raw_write address value
      else b

end MemoryBus

/-! ## CPU (gameboy/cpu.rs)

The CPU is generic over a SharedMemoryController.  Its own test harness
(gameboy/memory.rs TestMemoryBus, used by gameboy/cpu/test.rs) is a flat
64 KiB byte array with read_byte and write_byte the plain array load and
store; the embedding instantiates the CPU over exactly that memory. -/

/-- CPUFlags bitflags from cpu.rs: ZERO = bit 7, SUBTRACT = bit 6,
HALF_CARRY = bit 5, CARRY = bit 4. -/
structure CPUFlags where
  zero : Bool
  subtract : Bool
  half_carry : Bool
  carry : Bool
deriving DecidableEq, Repr

namespace CPUFlags

/-- CPUFlags::empty(). -/
def empty : CPUFlags := ⟨false, false, false, false⟩

/-- CPUFlags::from_bits_truncate: keep the four declared bits. -/
def from_bits_truncate (n : Nat) : CPUFlags :=
  ⟨n.testBit 7, n.testBit 6, n.testBit 5, n.testBit 4⟩

/-- bitflags bits(). -/
def bits (f : CPUFlags) : Nat :=
  (cond f.zero 128 0) + (cond f.subtract 64 0) + (cond f.half_carry 32 0) +
  (cond f.carry 16 0)

end CPUFlags

/-- check_half_carry_add from cpu.rs. -/
def check_half_carry_add (a b : Nat) : Bool :=
  0xF < (a &&& 0xF) + (b &&& 0xF)

/-- check_half_carry_sub from cpu.rs. -/
def check_half_carry_sub (a b : Nat) : Bool :=
  (a &&& 0xF) < (b &&& 0xF)

/-- check_half_carry_adc from cpu.rs. -/
def check_half_carry_adc (a b : Nat) (c : Bool) : Bool :=
  0xF < (a &&& 0xF) + (b &&& 0xF) + (cond c 1 0)

/-- check_half_carry_sbc from cpu.rs. -/
def check_half_carry_sbc (a b : Nat) (c : Bool) : Bool :=
  (a &&& 0xF) < (b &&& 0xF) + (cond c 1 0)

/-- IMEState enum from cpu.rs. -/
inductive IMEState where
  | Disabled
  | WillEnable
  | Enabled
deriving DecidableEq, Repr

/-- CPUState enum from cpu.rs. -/
inductive CPUState where
  | Ready
  | HaltBug
  | Halted
deriving DecidableEq, Repr

/-- InterruptDispatchState enum from cpu.rs. -/
inductive InterruptDispatchState where
  | Waiting
  | Dispatching (operations_remaining : Nat)
  | Cancelling
  | Finalizing (interrupt_enable interrupt_flag : Nat)
deriving DecidableEq, Repr

/-- OpTarget enum from cpu.rs. -/
inductive OpTarget where
  | MemoryAddress (address : Nat)
  | Immediate (value : Nat)
  | RegisterA
  | RegisterB
  | RegisterC
  | RegisterD
  | RegisterE
  | RegisterF
  | RegisterH
  | RegisterL
  | ProgramCounterLow
  | ProgramCounterHigh
  | StackPointerLow
  | StackPointerHigh
  | InternalBuffer
  | NoTarget
deriving DecidableEq, Repr

/-- ArithmeticOperation enum from cpu.rs. -/
inductive ArithmeticOperation where
  | Increment
  | Decrement
  | RotateLeft (set_zero through_carry : Bool)
  | RotateRight (set_zero through_carry : Bool)
  | Add
  | Sub
  | AddWithCarry
  | SubWithCarry
  | And
  | Xor
  | Or
  | Compare
  | ShiftLeft
  | ShiftRight (arithmetically : Bool)
  | Swap
  | Bit (bit : Nat)
  | Res (bit : Nat)
  | SetBit (bit : Nat)
deriving DecidableEq, Repr

/-- Operation enum from cpu.rs: the micro-operation alphabet. -/
inductive CPU.Operation where
  | ReadWriteWithFlags (read_from write_to : OpTarget) (flags : CPUFlags)
  | Arithmetic (lhs : OpTarget) (operation : ArithmeticOperation)
      (rhs : OpTarget)
  | ReadWrite (read_from write_to : OpTarget)
  | Parallel (n : Nat)
  | StackPush (read_from : OpTarget)
  | StackPop (write_to : OpTarget)
  | Nop
  | Fetch
  | Internal
  | InterruptDispatch
deriving DecidableEq, Repr

/-- OP_QUEUE_SIZE from cpu.rs. -/
def OP_QUEUE_SIZE : Nat := 16

/-- CPU state from cpu.rs, instantiated over the TestMemoryBus flat
64 KiB memory.  internal_buffer is the Vec used as a stack (push to and
pop from the end); the head of the list is the top. -/
structure CPU where
  register_a : Nat
  register_b : Nat
  register_c : Nat
  register_d : Nat
  register_e : Nat
  register_f : CPUFlags
  register_h : Nat
  register_l : Nat
  stack_pointer : Nat
  program_counter : Nat
  memory : Nat → Nat
  ime : IMEState
  state : CPUState
  pending_cycles : Int
  interrupt_dispatch : InterruptDispatchState
  operation_queue : List CPU.Operation
  internal_buffer : List Nat
  panicked : Bool

namespace CPU

/-- CPU::new over a TestMemoryBus image. -/
def new (memory : Nat → Nat) : CPU :=
  { register_a := 0, register_b := 0, register_c := 0, register_d := 0,
    register_e := 0, register_f := CPUFlags.empty, register_h := 0,
    register_l := 0, stack_pointer := 0xFFFE, program_counter := 0x0100,
    memory := memory, ime := IMEState.Disabled, state := CPUState.Ready,
    pending_cycles := 0, interrupt_dispatch := InterruptDispatchState.Waiting,
    operation_queue := [], internal_buffer := [], panicked := false }

/-- CPU::read_memory through the TestMemoryBus. -/
def read_memory (c : CPU) (address : Nat) : Nat := c.memory (wrap16 address)

/-- CPU::write_memory through the TestMemoryBus. -/
def write_memory (c : CPU) (address value : Nat) : CPU :=
  { c with memory := fun i => if i = wrap16 address then value
                              else c.memory i }

/-- CPU::read_next_pc: fetch the byte at PC and increment PC. -/
def read_next_pc (c : CPU) : Nat × CPU :=
  (c.read_memory c.program_counter,
   { c with program_counter := wrap16 (c.program_counter + 1) })

/-- CPU::read_target.  The InternalBuffer arm pops the Vec (panics when
empty). -/
def read_target (c : CPU) (target : OpTarget) : Nat × CPU :=
  match target with
  | OpTarget.RegisterA => (c.register_a, c)
  | OpTarget.RegisterB => (c.register_b, c)
  | OpTarget.RegisterC => (c.register_c, c)
  | OpTarget.RegisterD => (c.register_d, c)
  | OpTarget.RegisterE => (c.register_e, c)
  | OpTarget.RegisterF => (c.register_f.bits, c)
  | OpTarget.RegisterH => (c.register_h, c)
  | OpTarget.RegisterL => (c.register_l, c)
  | OpTarget.ProgramCounterLow => (c.program_counter &&& 0xFF, c)
  | OpTarget.ProgramCounterHigh => ((c.program_counter &&& 0xFF00) >>> 8, c)
  | OpTarget.StackPointerLow => (c.stack_pointer &&& 0xFF, c)
  | OpTarget.StackPointerHigh => ((c.stack_pointer &&& 0xFF00) >>> 8, c)
  | OpTarget.MemoryAddress address => (c.read_memory address, c)
  | OpTarget.Immediate value => (value, c)
  | OpTarget.InternalBuffer =>
      match c.internal_buffer with
      | v :: rest => (v, { c with internal_buffer := rest })
      | [] => (0, { c with panicked := true })
  | OpTarget.NoTarget => (0, c)

/-- CPU::write_target. -/
def write_target (c : CPU) (target : OpTarget) (value : Nat) : CPU :=
  match target with
  | OpTarget.RegisterA => { c with register_a := value }
  | OpTarget.RegisterB => { c with register_b := value }
  | OpTarget.RegisterC => { c with register_c := value }
  | OpTarget.RegisterD => { c with register_d := value }
  | OpTarget.RegisterE => { c with register_e := value }
  | OpTarget.RegisterF =>
      { c with register_f := CPUFlags.from_bits_truncate value }
  | OpTarget.RegisterH => { c with register_h := value }
  | OpTarget.RegisterL => { c with register_l := value }
  | OpTarget.ProgramCounterLow =>
      { c with program_counter := (c.program_counter &&& 0xFF00) ||| value }
  | OpTarget.ProgramCounterHigh =>
      { c with program_counter :=
                 (c.program_counter &&& 0x00FF) ||| (value <<< 8) }
  | OpTarget.StackPointerLow =>
      { c with stack_pointer := (c.stack_pointer &&& 0xFF00) ||| value }
  | OpTarget.StackPointerHigh =>
      { c with stack_pointer := (c.stack_pointer &&& 0x00FF) ||| (value <<< 8) }
  | OpTarget.InternalBuffer =>
      { c with internal_buffer := value :: c.internal_buffer }
  | OpTarget.Immediate _ => c
  | OpTarget.MemoryAddress address => c.write_memory address value
  | OpTarget.NoTarget => c

/-- Rotate a byte left by one (u8::rotate_left(1)). -/
def rotl8 (v : Nat) : Nat := ((v <<< 1) ||| (v >>> 7)) &&& 0xFF

/-- Rotate a byte right by one (u8::rotate_right(1)). -/
def rotr8 (v : Nat) : Nat := ((v >>> 1) ||| (v <<< 7)) &&& 0xFF

/-- CPU::perform_arithmetic from cpu.rs (flag computation per ALU
operation). -/
def perform_arithmetic (c : CPU) (operation : ArithmeticOperation)
    (lhs rhs : OpTarget) : CPU :=
  let rl := c.read_target lhs
  let lhs_value := rl.1
  let rr := rl.2.read_target rhs
  let rhs_value := rr.1
  let c := rr.2
  match operation with
  | ArithmeticOperation.Increment =>
      let new_value := wrap8 (lhs_value + 1)
      let c := { c with register_f :=
        { c.register_f with zero := new_value = 0,
                            half_carry := check_half_carry_add lhs_value 1,
                            subtract := false } }
      c.write_target lhs new_value
  | ArithmeticOperation.Decrement =>
      let new_value := wrap8 (lhs_value + 255)
      let c := { c with register_f :=
        { c.register_f with zero := new_value = 0,
                            half_carry := check_half_carry_sub lhs_value 1,
                            subtract := true } }
      c.write_target lhs new_value
  | ArithmeticOperation.RotateLeft set_zero through_carry =>
      if through_carry then
        let carry := c.register_f.carry
        let c := { c with register_f :=
          { c.register_f with carry := lhs_value &&& 0x80 ≠ 0 } }
        let new_value := wrap8 ((lhs_value <<< 1) ||| (cond carry 1 0))
        let c := { c with register_f :=
          { c.register_f with zero := new_value = 0 ∧ set_zero = true,
                              subtract := false, half_carry := false } }
        c.write_target lhs new_value
      else
        let c := { c with register_f :=
          { c.register_f with carry := lhs_value &&& 0x80 ≠ 0 } }
        let new_value := rotl8 lhs_value
        let c := { c with register_f :=
          { c.register_f with zero := new_value = 0 ∧ set_zero = true,
                              subtract := false, half_carry := false } }
        c.write_target lhs new_value
  | ArithmeticOperation.RotateRight set_zero through_carry =>
      if through_carry then
        let carry := c.register_f.carry
        let c := { c with register_f :=
          { c.register_f with carry := lhs_value &&& 0x01 ≠ 0 } }
        let new_value := (lhs_value >>> 1) ||| ((cond carry 1 0) <<< 7)
        let c := { c with register_f :=
          { c.register_f with zero := new_value = 0 ∧ set_zero = true,
                              subtract := false, half_carry := false } }
        c.write_target lhs new_value
      else
        let c := { c with register_f :=
          { c.register_f with carry := lhs_value &&& 0x01 ≠ 0 } }
        let new_value := rotr8 lhs_value
        let c := { c with register_f :=
          { c.register_f with zero := new_value = 0 ∧ set_zero = true,
                              subtract := false, half_carry := false } }
        c.write_target lhs new_value
  | ArithmeticOperation.Add =>
      let half_carry := check_half_carry_add lhs_value rhs_value
      let result := wrap8 (lhs_value + rhs_value)
      let carry := 256 ≤ lhs_value + rhs_value
      let c := { c with register_f :=
        { zero := result = 0, subtract := false, half_carry := half_carry,
          carry := carry } }
      c.write_target lhs result
  | ArithmeticOperation.Sub =>
      let half_carry := check_half_carry_sub lhs_value rhs_value
      let result := wrap8 (lhs_value + 256 - rhs_value % 256)
      let carry := lhs_value < rhs_value
      let c := { c with register_f :=
        { zero := result = 0, subtract := true, half_carry := half_carry,
          carry := carry } }
      c.write_target lhs result
  | ArithmeticOperation.AddWithCarry =>
      let has_carry := c.register_f.carry
      let half_carry := check_half_carry_adc lhs_value rhs_value has_carry
      let result1 := wrap8 (lhs_value + rhs_value)
      let carry1 := 256 ≤ lhs_value + rhs_value
      let result2 := wrap8 (result1 + cond has_carry 1 0)
      let carry2 := 256 ≤ result1 + cond has_carry 1 0
      let c := { c with register_f :=
        { zero := result2 = 0, subtract := false, half_carry := half_carry,
          carry := carry1 ∨ carry2 } }
      c.write_target lhs result2
  | ArithmeticOperation.SubWithCarry =>
      let has_carry := c.register_f.carry
      let half_carry := check_half_carry_sbc lhs_value rhs_value has_carry
      let result1 := wrap8 (lhs_value + 256 - rhs_value % 256)
      let carry1 := lhs_value < rhs_value
      let result2 := wrap8 (result1 + 256 - (cond has_carry 1 0))
      let carry2 := result1 < cond has_carry 1 0
      let c := { c with register_f :=
        { zero := result2 = 0, subtract := true, half_carry := half_carry,
          carry := carry1 ∨ carry2 } }
      c.write_target lhs result2
  | ArithmeticOperation.And =>
      let result := lhs_value &&& rhs_value
      let c := { c with register_f :=
        { zero := result = 0, subtract := false, half_carry := true,
          carry := false } }
      c.write_target lhs result
  | ArithmeticOperation.Xor =>
      let result := lhs_value ^^^ rhs_value
      let c := { c with register_f :=
        { zero := result = 0, subtract := false, half_carry := false,
          carry := false } }
      c.write_target lhs result
  | ArithmeticOperation.Or =>
      let result := lhs_value ||| rhs_value
      let c := { c with register_f :=
        { zero := result = 0, subtract := false, half_carry := false,
          carry := false } }
      c.write_target lhs result
  | ArithmeticOperation.Compare =>
      let half_carry := check_half_carry_sub lhs_value rhs_value
      let result := wrap8 (lhs_value + 256 - rhs_value % 256)
      let carry := lhs_value < rhs_value
      { c with register_f :=
        { zero := result = 0, subtract := true, half_carry := half_carry,
          carry := carry } }
  | ArithmeticOperation.ShiftLeft =>
      let c := { c with register_f :=
        { c.register_f with carry := lhs_value &&& 0x80 ≠ 0 } }
      let result := wrap8 (lhs_value <<< 1)
      let c := { c with register_f :=
        { c.register_f with zero := result = 0, subtract := false,
                            half_carry := false } }
      c.write_target lhs result
  | ArithmeticOperation.ShiftRight arithmetically =>
      if arithmetically then
        let c := { c with register_f :=
          { c.register_f with carry := lhs_value &&& 0x01 ≠ 0 } }
        let result := (lhs_value &&& 0x80) ||| (lhs_value >>> 1)
        let c := { c with register_f :=
          { c.register_f with zero := result = 0, subtract := false,
                              half_carry := false } }
        c.write_target lhs result
      else
        let c := { c with register_f :=
          { c.register_f with carry := lhs_value &&& 0x01 ≠ 0 } }
        let result := lhs_value >>> 1
        let c := { c with register_f :=
          { c.register_f with zero := result = 0, subtract := false,
                              half_carry := false } }
        c.write_target lhs result
  | ArithmeticOperation.Swap =>
      let result := ((lhs_value <<< 4) ||| (lhs_value >>> 4)) &&& 0xFF
      let c := { c with register_f :=
        { CPUFlags.empty with zero := result = 0 } }
      c.write_target lhs result
  | ArithmeticOperation.Bit bit =>
      { c with register_f :=
        { c.register_f with zero := lhs_value &&& (1 <<< bit) = 0,
                            subtract := false, half_carry := true } }
  | ArithmeticOperation.Res bit =>
      c.write_target lhs (lhs_value &&& (0xFF ^^^ (1 <<< bit)))
  | ArithmeticOperation.SetBit bit =>
      c.write_target lhs (lhs_value ||| (1 <<< bit))

/-- Queue push with the ArrayDeque capacity-16 unwrap (overflow
panics). -/
def pushOp (c : CPU) (op : Operation) : CPU :=
  if OP_QUEUE_SIZE ≤ c.operation_queue.length then { c with panicked := true }
  else { c with operation_queue := c.operation_queue ++ [op] }

/-- Queue extend with ArrayDeque Saturating extend_back semantics:
elements beyond the capacity are silently dropped. -/
def extendOps (c : CPU) (ops : List Operation) : CPU :=
  { c with operation_queue :=
      c.operation_queue ++ ops.take (OP_QUEUE_SIZE - c.operation_queue.length) }

/-- Number of trailing zero bits of a byte (u8::trailing_zeros; 8 for
zero). -/
def trailingZeros8 (n : Nat) : Nat :=
  if n.testBit 0 then 0
  else if n.testBit 1 then 1
  else if n.testBit 2 then 2
  else if n.testBit 3 then 3
  else if n.testBit 4 then 4
  else if n.testBit 5 then 5
  else if n.testBit 6 then 6
  else if n.testBit 7 then 7
  else 8

/-- CPU::handle_interrupts from cpu.rs. -/
def handle_interrupts (c : CPU) : CPU :=
  match c.interrupt_dispatch with
  | InterruptDispatchState.Waiting =>
      if ¬c.operation_queue.isEmpty then c
      else
        let interrupt_enable := c.read_memory 0xFFFF
        let interrupt_flag := c.read_memory 0xFF0F
        if interrupt_enable &&& interrupt_flag = 0 then c
        else
          match c.ime with
          | IMEState.Enabled =>
              let halted := c.state = CPUState.Halted
              let c :=
                if halted then
                  { c.pushOp Operation.Nop with state := CPUState.Ready }
                else c
              let dispatch_operations : Nat := if halted then 3 else 2
              let c := { c with interrupt_dispatch :=
                  InterruptDispatchState.Dispatching dispatch_operations }
              c.extendOps
                [Operation.Nop, Operation.Nop,
                 Operation.StackPush OpTarget.ProgramCounterHigh,
                 Operation.StackPush OpTarget.ProgramCounterLow,
                 Operation.InterruptDispatch]
          | _ =>
              if c.state = CPUState.Halted then
                { c.pushOp Operation.Nop with state := CPUState.Ready }
              else c
  | InterruptDispatchState.Dispatching 0 =>
      let interrupt_enable := c.read_memory 0xFFFF
      let interrupt_flag := c.read_memory 0xFF0F
      if interrupt_enable &&& interrupt_flag = 0 then
        { c with interrupt_dispatch := InterruptDispatchState.Cancelling }
      else
        { c with interrupt_dispatch :=
            InterruptDispatchState.Finalizing interrupt_enable interrupt_flag }
  | InterruptDispatchState.Dispatching (operations_remaining + 1) =>
      let interrupt_enable := c.read_memory 0xFFFF
      let interrupt_flag := c.read_memory 0xFF0F
      if interrupt_enable &&& interrupt_flag = 0 then
        { c with interrupt_dispatch := InterruptDispatchState.Cancelling }
      else
        { c with interrupt_dispatch :=
            InterruptDispatchState.Dispatching operations_remaining }
  | _ => c

/-- CPU::load_operation, restricted to the opcodes the settled claims
execute: NOP (0x00), RETI (0xD9), DI (0xF3) and EI (0xFB), each arm
translated from its decoder arm in cpu.rs.  The remaining decoder arms
fill the queue for the other instructions and are orthogonal to every
claim; decoding any other opcode here sets the panicked flag so that no
proof can silently rely on an unmodelled instruction. -/
def load_operation (c : CPU) : CPU :=
  let fetched :=
    match c.state with
    | CPUState.HaltBug =>
        (c.read_memory c.program_counter, { c with state := CPUState.Ready })
    | _ => ((c.read_next_pc).1, (c.read_next_pc).2)
  let next_instruction := fetched.1
  let c := fetched.2
  if next_instruction = 0x00 then
    -- NOP | 1 4 | - - - -
    c.pushOp Operation.Nop
  else if next_instruction = 0xD9 then
    -- RETI | 1 16 | - - - - : enable IME immediately, then RET
    let c := { c with ime := IMEState.Enabled }
    c.extendOps
      [Operation.Fetch, Operation.StackPop OpTarget.ProgramCounterLow,
       Operation.StackPop OpTarget.ProgramCounterHigh, Operation.Internal]
  else if next_instruction = 0xF3 then
    -- DI | 1 4 | - - - - : disable interrupts by clearing the IME flag
    let c := { c with ime := IMEState.Disabled }
    c.pushOp Operation.Nop
  else if next_instruction = 0xFB then
    -- EI | 1 4 | - - - - (source comment: the flag is only set after
    -- the instruction following EI)
    let c := if c.ime = IMEState.Disabled then
               { c with ime := IMEState.WillEnable }
             else c
    c.pushOp Operation.Nop
  else { c with panicked := true }

/-- Effects of one dequeued CPU micro-operation (the match body of
CPU::tick).  The Bool result records the early return executed by the
InterruptDispatch arm when the pending source is not one of the five
interrupt bits (the underscore arm of the vector match). -/
def exec (op : Operation) (c : CPU) : CPU × Bool :=
  match op with
  | Operation.Nop | Operation.Internal | Operation.Fetch => (c, false)
  | Operation.Parallel n =>
      ({ c with pending_cycles := c.pending_cycles + (n : Int) * 4 }, false)
  | Operation.ReadWrite read_from write_to =>
      let r := c.read_target read_from
      (r.2.write_target write_to r.1, false)
  | Operation.ReadWriteWithFlags read_from write_to flags =>
      let r := c.read_target read_from
      let c := r.2.write_target write_to r.1
      ({ c with register_f := flags }, false)
  | Operation.Arithmetic lhs operation rhs =>
      (c.perform_arithmetic operation lhs rhs, false)
  | Operation.StackPush read_from =>
      let r := c.read_target read_from
      let c := r.2
      let c := { c with stack_pointer := wsub16 c.stack_pointer 1 }
      (c.write_memory c.stack_pointer r.1, false)
  | Operation.StackPop write_to =>
      let value := c.read_memory c.stack_pointer
      let c := { c with stack_pointer := wrap16 (c.stack_pointer + 1) }
      (c.write_target write_to value, false)
  | Operation.InterruptDispatch =>
      let c := { c with ime := IMEState.Disabled }
      match c.interrupt_dispatch with
      | InterruptDispatchState.Cancelling =>
          -- IE flag was unset during interrupt handling: PC is set to 0
          ({ c with program_counter := 0x0000,
                    interrupt_dispatch := InterruptDispatchState.Waiting },
           false)
      | InterruptDispatchState.Finalizing interrupt_enable interrupt_flag =>
          let interrupt := trailingZeros8 (interrupt_enable &&& interrupt_flag)
          -- clear the IF bit to mark the interrupt as handled
          let interrupt_flag :=
            interrupt_flag &&& (0xFF ^^^ (1 <<< (interrupt % 8)))
          let c := c.write_memory 0xFF0F interrupt_flag
          if interrupt = 0 then
            ({ c with program_counter := 0x0040,
                      interrupt_dispatch := InterruptDispatchState.Waiting },
             false)
          else if interrupt = 1 then
            ({ c with program_counter := 0x0048,
                      interrupt_dispatch := InterruptDispatchState.Waiting },
             false)
          else if interrupt = 2 then
            ({ c with program_counter := 0x0050,
                      interrupt_dispatch := InterruptDispatchState.Waiting },
             false)
          else if interrupt = 3 then
            ({ c with program_counter := 0x0058,
                      interrupt_dispatch := InterruptDispatchState.Waiting },
             false)
          else if interrupt = 4 then
            ({ c with program_counter := 0x0060,
                      interrupt_dispatch := InterruptDispatchState.Waiting },
             false)
          else
            -- the underscore arm returns from tick before the dispatch
            -- state is reset
            (c, true)
      | _ =>
          -- the source panics here (dispatch requested with no
          -- interrupt state)
          ({ c with panicked := true }, true)

/-- One 4-T-cycle slot of CPU::tick (the body of its while loop):
interrupt handling, decode when the queue is empty with the
WillEnable-to-Enabled promotion right after the decode, then one
micro-operation.  The Bool result propagates exec's early return. -/
def step (c : CPU) : CPU × Bool :=
  let c := c.handle_interrupts
  if c.state = CPUState.Halted then (c, false)
  else
    let c :=
      if c.operation_queue.isEmpty then
        let c := c.load_operation
        if c.ime = IMEState.WillEnable then { c with ime := IMEState.Enabled }
        else c
      else c
    match c.operation_queue with
    | [] => ({ c with panicked := true }, true)
    | op :: rest => exec op { c with operation_queue := rest }

/-- Fuelled form of the while loop in CPU::tick. -/
def tickLoop : Nat → CPU → CPU
  | 0, c => c
  | fuel + 1, c =>
      if 4 ≤ c.pending_cycles then
        let c := { c with pending_cycles := c.pending_cycles - 4 }
        let r := step c
        if r.2 then r.1 else tickLoop fuel r.1
  else c

/-- CPU::tick with explicit fuel for the slot loop. -/
def tick (fuel : Nat) (c : CPU) (cycles : Nat) : CPU :=
  tickLoop fuel { c with pending_cycles := c.pending_cycles + (cycles : Int) }

end CPU

/-! ## Reachability of PPU states and the STAT high-bit invariant -/

/-- Invariant: bit 7 and the LYC-interrupt-enable bit (bit 6) of the
STAT register are set. -/
def StatHi (p : PPU) : Prop :=
  p.registers.stat.bit7 = true ∧
  p.registers.stat.lyc_interrupt_enable = true

/-- Reachable PPU states: PPU::new closed under the three operations the
rest of the system ever applies to the PPU (Register::tick,
Register::write, including the OAM writes performed by the DMA engine,
and retrieve_interrupts).  Register::read is pure. -/
inductive PPUReachable : PPU → Prop where
  | new : PPUReachable PPU.new
  | tick (fuel cycles : Nat) {p : PPU} :
      PPUReachable p → PPUReachable (PPU.tick fuel p cycles)
  | write (a v : Nat) {p : PPU} :
      PPUReachable p → PPUReachable (PPU.write p a v)
  | drain {p : PPU} :
      PPUReachable p → PPUReachable (p.retrieve_interrupts).2

/-! ## Concrete scenario states used by the per-claim theorems -/

/-- Timer one falling edge away from a TIMA overflow: enabled, tap bit 3
(TAC frequency 1, Increment4), internal clock 12 so the next 4-cycle
step clears bit 3, TIMA = 0xFF, TMA = 0xAB, reload machine idle, nothing
pending. -/
def c4Timer : Timer :=
  { enabled := true, clock := 12, cycles := 0,
    frequency := Frequency.Increment4, tma := 0xAB, tima := 0xFF,
    tima_reload := TimaReload.Idle, pending_interrupts := none }

/-- Serial right after the guest writes 0x42 to 0xFF01 and 0x81 to
0xFF02. -/
def c8Serial : Serial := (Serial.new.write 0xFF01 0x42).write 0xFF02 0x81

/-- Iterated 4-T-cycle serial ticks (the cadence at which the bus drives
Register::tick, CYCLE_RESOLUTION = 4). -/
def serialTicks : Nat → Serial → Serial
  | 0, s => s
  | n + 1, s => serialTicks n (s.tick 4)

/-- Joypad with the action buttons selected (a write of 0x10 to 0xFF00:
bit 5 low selects buttons... bit 5 of 0x10 is 0, bit 4 is 1). -/
def c9Joypad : Joypad := Joypad.new.write 0x10

/-- A concrete MBC1 cartridge: fresh banking registers, 32 KiB ROM of
zeroes, 8 KiB RAM of zeroes. -/
def mbc1Cart : Cartridge :=
  { mbc := MBCKind.mbc1 MBC1.new, rom := fun _ => 0, romLen := 0x8000,
    ram := fun _ => 0, ramLen := 0x2000 }

/-- A freshly built memory bus over the concrete MBC1 cartridge and
power-on peripherals. -/
def c1Bus : MemoryBus :=
  MemoryBus.build mbc1Cart Timer.new Joypad.new Serial.new APU.new PPU.new

/-- The bus right after a write of 0x12 to the DMA trigger 0xFF46: DMA
is Active with source 0x1200. -/
def c1BusActive : MemoryBus := c1Bus.write_byte 0xFF46 0x12

/-- A second freshly built bus for the echo-RAM claim. -/
def c6Bus : MemoryBus :=
  MemoryBus.build mbc1Cart Timer.new Joypad.new Serial.new APU.new PPU.new

/-- TestMemoryBus image for the dispatch-cancellation claim: IE = IF =
0x20 (only bit 5, which is not one of the five interrupt sources),
everything else zero. -/
def c2Mem : Nat → Nat := fun a =>
  if a = 0xFFFF then 0x20 else if a = 0xFF0F then 0x20 else 0

/-- CPU over c2Mem with interrupts enabled, about to schedule a
dispatch. -/
def c2Cpu : CPU := { CPU.new c2Mem with ime := IMEState.Enabled }

/-- Iterated 4-T-cycle CPU ticks (the system loop calls cpu.tick(4)). -/
def cpuTicks : Nat → CPU → CPU
  | 0, c => c
  | n + 1, c => cpuTicks n (CPU.tick 8 c 4)

/-- CPU holding only the terminal dispatch micro-op with the dispatch
state already Cancelling. -/
def c2CpuCancel : CPU :=
  { c2Cpu with interrupt_dispatch := InterruptDispatchState.Cancelling,
               operation_queue := [CPU.Operation.InterruptDispatch] }

/-- CPU mid-dispatch (one delay slot left) whose IE and IF intersection
has just become empty. -/
def c2CpuMid : CPU :=
  { CPU.new (fun _ => 0) with
      interrupt_dispatch := InterruptDispatchState.Dispatching 1,
      operation_queue := [CPU.Operation.Nop] }

/-- CPU holding only the terminal dispatch micro-op with a finalized
VBLANK snapshot. -/
def c2CpuFinal : CPU :=
  { c2Cpu with
      interrupt_dispatch := InterruptDispatchState.Finalizing 0x01 0x01,
      operation_queue := [CPU.Operation.InterruptDispatch] }

/-- TestMemoryBus image for the EI-delay claim: the program EI; NOP at
0x0100, with IE = IF = 0x01 (a VBLANK interrupt pending throughout). -/
def c3Mem : Nat → Nat := fun a =>
  if a = 0x0100 then 0xFB else if a = 0x0101 then 0x00
  else if a = 0xFFFF then 0x01 else if a = 0xFF0F then 0x01 else 0

/-- CPU over c3Mem at power-on hand-off (PC = 0x0100, IME disabled). -/
def c3Cpu : CPU := CPU.new c3Mem

/-- An enabled PPU in mid-frame (line 5, HBlank) whose LCDC bit 7 has
just been cleared by the guest (lcdc is empty). -/
def c5Ppu : PPU :=
  { PPU.new with
    lcd_state := LcdState.Enabled
    mode := Mode.HBlank
    operation_queue := [PPU.Operation.Sleep 100, PPU.Operation.NewScanline]
    registers := { InternalRegisters.new with ly := 5 } }

/-- PPU::new after the guest sets LCDC bit 7 (write 0x80 to 0xFF40). -/
def c5PpuOn : PPU := PPU.write PPU.new 0xFF40 0x80

/-!
# Theorems

One theorem per claim of the specification review, with counterexamples
and witnesses where required, preceded by shared helper lemmas.
-/

/-- Timer::groupStep never touches the cycles accumulator. -/
theorem groupStep_cycles (t : Timer) : (Timer.groupStep t).cycles = t.cycles := by
  obtain ⟨en, ck, cy, fr, tma, tima, rel, pend⟩ := t
  cases rel <;>
    simp only [Timer.groupStep, Timer.timer_increment] <;> split <;>
    first | rfl | (split <;> rfl)

/-- A 4-cycle Timer::tick on a drained accumulator is exactly one group
step. -/
theorem tick4_eq_groupStep (t : Timer) (h0 : t.cycles = 0) :
    t.tick 4 = Timer.groupStep { t with cycles := 0 } := by
  obtain ⟨en, ck, cy, fr, tma, tima, rel, pend⟩ := t
  simp only at h0
  subst h0
  simp only [Timer.tick, Timer.tickLoop]
  norm_num [groupStep_cycles]

/-- C4 claim as stated is false: in the very 4-T-cycle slot in which the
TIMA overflow is observed (TIMA wraps 0xFF to 0x00 and the reload
machine enters Reloading), Timer::timer_increment has already inserted
the TIMER interrupt into the pending set, so an interrupt is raised in
that slot, one slot before TIMA is reloaded from TMA. -/
theorem claim_C4_counterexample :
    (c4Timer.tick 4).tima = 0 ∧
    (c4Timer.tick 4).tima_reload = TimaReload.Reloading ∧
    (c4Timer.tick 4).pending_interrupts = some Interrupt.TIMER := by
  decide

/-- C4, amended: when TIMA overflows, TIMA reads 0x00 for the 4-T-cycle
slot in which the overflow is observed and the TIMER interrupt is
requested already in that same slot; in the next 4-cycle slot TIMA is
loaded from TMA (with no further interrupt); in the slot after the
reload, writes to TIMA are ignored. -/
theorem claim_C4 :
    (∀ t : Timer, t.cycles = 0 → t.tima = 0xFF →
      t.tima_reload = TimaReload.Idle → t.edge_detect = true →
      Timer.edge_detect { t with clock := wrap16 (t.clock + 4) } = false →
      (t.tick 4).tima = 0 ∧
      (t.tick 4).tima_reload = TimaReload.Reloading ∧
      Timer.read (t.tick 4) 0xFF05 = 0 ∧
      (t.tick 4).pending_interrupts =
        some ((t.pending_interrupts.getD Interrupt.empty).insert
                Interrupt.TIMER)) ∧
    (∀ t : Timer, t.cycles = 0 → t.tima_reload = TimaReload.Reloading →
      (t.edge_detect = false ∨
       Timer.edge_detect { t with clock := wrap16 (t.clock + 4) } = true) →
      (t.tick 4).tima = t.tma ∧
      (t.tick 4).tima_reload = TimaReload.Reloaded ∧
      (t.tick 4).pending_interrupts = t.pending_interrupts) ∧
    (∀ (t : Timer) (v : Nat), t.tima_reload = TimaReload.Reloaded →
      (t.write 0xFF05 v).tima = t.tima ∧
      (t.write 0xFF05 v).tima_reload = TimaReload.Reloaded) := by
  refine ⟨?_, ?_, ?_⟩
  · intro t h0 h1 h2 h3 h4
    obtain ⟨en, ck, cy, fr, tma, tima, rel, pend⟩ := t
    simp only at h0 h1 h2
    subst h0 h1 h2
    simp only [Timer.tick, Timer.tickLoop, Timer.groupStep] at *
    simp [h3, h4, Timer.timer_increment, Timer.read, wrap8]
  · intro t h0 h2 hne
    rw [tick4_eq_groupStep t h0]
    obtain ⟨en, ck, cy, fr, tma, tima, rel, pend⟩ := t
    simp only at h2
    subst h2
    simp only [Timer.groupStep, Timer.timer_increment,
      Timer.edge_detect] at hne ⊢
    split
    next hcond => rcases hne with h | h <;> simp_all
    next hcond => simp
  · intro t v h2
    obtain ⟨en, ck, cy, fr, tma, tima, rel, pend⟩ := t
    simp only at h2
    subst h2
    simp [Timer.write]

/-- Witness for claim_C4 at the concrete timer c4Timer and its two
follow-up states. -/
theorem claim_C4_witness :
    ((c4Timer.tick 4).tima = 0 ∧
     (c4Timer.tick 4).tima_reload = TimaReload.Reloading ∧
     Timer.read (c4Timer.tick 4) 0xFF05 = 0 ∧
     (c4Timer.tick 4).pending_interrupts =
       some ((c4Timer.pending_interrupts.getD Interrupt.empty).insert
               Interrupt.TIMER)) ∧
    (((c4Timer.tick 4).tick 4).tima = (c4Timer.tick 4).tma ∧
     ((c4Timer.tick 4).tick 4).tima_reload = TimaReload.Reloaded ∧
     ((c4Timer.tick 4).tick 4).pending_interrupts =
       (c4Timer.tick 4).pending_interrupts) ∧
    ((((c4Timer.tick 4).tick 4).write 0xFF05 0x77).tima =
       ((c4Timer.tick 4).tick 4).tima ∧
     (((c4Timer.tick 4).tick 4).write 0xFF05 0x77).tima_reload =
       TimaReload.Reloaded) :=
  ⟨claim_C4.1 c4Timer (by decide) (by decide) (by decide) (by decide)
     (by decide),
   claim_C4.2.1 (c4Timer.tick 4) (by decide) (by decide) (by decide),
   claim_C4.2.2 ((c4Timer.tick 4).tick 4) 0x77 (by decide)⟩

/-- Splitting an iterated serial run. -/
theorem serialTicks_add (a b : Nat) (s : Serial) :
    serialTicks (a + b) s = serialTicks b (serialTicks a s) := by
  induction a generalizing s with
  | zero => rw [Nat.zero_add]; rfl
  | succ a ih => rw [Nat.succ_add]; exact ih (s.tick 4)

set_option maxRecDepth 8000 in
/-- State of the c8Serial run after 896 4-cycle ticks: the eighth shift
has happened, the byte register has shifted to zero, nothing emitted
yet. -/
theorem c8_at_896 :
    serialTicks 896 c8Serial =
      { transfer_state := TransferState.InProgress 0x42 8,
        clock_speed := ClockSpeed.Hz8192, sb_register := 0x00,
        master := true, remaining_cycles := 512, pending_interrupts := none,
        output := [] } := by
  have e1 : serialTicks 128 c8Serial =
      { transfer_state := TransferState.InProgress 0x42 2,
        clock_speed := ClockSpeed.Hz8192, sb_register := 0x08,
        master := true, remaining_cycles := 512, pending_interrupts := none,
        output := [] } := by decide
  have e2 : serialTicks 256 c8Serial =
      { transfer_state := TransferState.InProgress 0x42 3,
        clock_speed := ClockSpeed.Hz8192, sb_register := 0x10,
        master := true, remaining_cycles := 512, pending_interrupts := none,
        output := [] } := by
    rw [show (256 : Nat) = 128 + 128 from rfl, serialTicks_add, e1]; decide
  have e3 : serialTicks 384 c8Serial =
      { transfer_state := TransferState.InProgress 0x42 4,
        clock_speed := ClockSpeed.Hz8192, sb_register := 0x20,
        master := true, remaining_cycles := 512, pending_interrupts := none,
        output := [] } := by
    rw [show (384 : Nat) = 256 + 128 from rfl, serialTicks_add, e2]; decide
  have e4 : serialTicks 512 c8Serial =
      { transfer_state := TransferState.InProgress 0x42 5,
        clock_speed := ClockSpeed.Hz8192, sb_register := 0x40,
        master := true, remaining_cycles := 512, pending_interrupts := none,
        output := [] } := by
    rw [show (512 : Nat) = 384 + 128 from rfl, serialTicks_add, e3]; decide
  have e5 : serialTicks 640 c8Serial =
      { transfer_state := TransferState.InProgress 0x42 6,
        clock_speed := ClockSpeed.Hz8192, sb_register := 0x80,
        master := true, remaining_cycles := 512, pending_interrupts := none,
        output := [] } := by
    rw [show (640 : Nat) = 512 + 128 from rfl, serialTicks_add, e4]; decide
  have e6 : serialTicks 768 c8Serial =
      { transfer_state := TransferState.InProgress 0x42 7,
        clock_speed := ClockSpeed.Hz8192, sb_register := 0x00,
        master := true, remaining_cycles := 512, pending_interrupts := none,
        output := [] } := by
    rw [show (768 : Nat) = 640 + 128 from rfl, serialTicks_add, e5]; decide
  rw [show (896 : Nat) = 768 + 128 from rfl, serialTicks_add, e6]; decide

set_option maxRecDepth 8000 in
/-- C8 claim as stated is false in one conjunct: after the 8 shift
periods complete, the byte shifted into 0xFF01 from the implementation's
shift-in is 0x00, not 0xFF (Serial::tick shifts in zero bits). -/
theorem claim_C8_counterexample :
    Serial.read (serialTicks 1024 c8Serial) 0xFF01 = 0x00 ∧ (0x00 : Nat) ≠ 0xFF := by
  rw [show (1024 : Nat) = 896 + 128 from rfl, serialTicks_add, c8_at_896]
  decide

set_option maxRecDepth 8000 in
/-- C8, amended: writing 0x42 to 0xFF01 and then 0x81 to 0xFF02 starts a
transfer that completes after exactly 8 shift periods of
SYSTEM_CLOCK_RATE/8192 T-cycles each (1024 ticks of 4 T-cycles from the
start), at which point the byte 0x42 is emitted to the serial sink, the
SERIAL interrupt is requested, and 0x00 (not 0xFF) has been shifted into
0xFF01. -/
theorem claim_C8 :
    c8Serial.transfer_state = TransferState.InProgress 0x42 0 ∧
    (serialTicks 1023 c8Serial).output = [] ∧
    (serialTicks 1023 c8Serial).pending_interrupts = none ∧
    (serialTicks 1024 c8Serial).output = [0x42] ∧
    (serialTicks 1024 c8Serial).pending_interrupts = some Interrupt.SERIAL ∧
    (serialTicks 1024 c8Serial).transfer_state = TransferState.Waiting ∧
    (serialTicks 1024 c8Serial).sb_register = 0x00 ∧
    1024 * 4 = 8 * (SYSTEM_CLOCK_RATE / 8192) := by
  have e1023 : (1023 : Nat) = 896 + 127 := rfl
  have e1024 : (1024 : Nat) = 896 + 128 := rfl
  refine ⟨by decide, ?_, ?_, ?_, ?_, ?_, ?_, by decide⟩ <;>
    first
      | (rw [e1023, serialTicks_add, c8_at_896]; decide)
      | (rw [e1024, serialTicks_add, c8_at_896]; decide)

/-- C7 as stated: for any MBC1 cartridge with non-empty RAM and fresh
banking registers, the RAM enable round-trip stores and hides 0x42 at
0xA000 as claimed, and writing ROM bank 0 to 0x2000 yields an effective
bank of 1 for the whole 0x4000-0x7FFF region. -/
theorem claim_C7 (rom ram : Nat → Nat) (romLen ramLen : Nat)
    (h : 0 < ramLen) :
    let c0 : Cartridge :=
      { mbc := MBCKind.mbc1 MBC1.new, rom := rom, romLen := romLen,
        ram := ram, ramLen := ramLen }
    let c1 := (c0.write 0x0000 0x0A).write 0xA000 0x42
    let c2 := c1.write 0x0000 0x00
    let c3 := c2.write 0x0000 0x0A
    let c4 := c3.write 0x2000 0x00
    c1.read 0xA000 = 0x42 ∧
    c2.read 0xA000 = 0xFF ∧
    c3.read 0xA000 = 0x42 ∧
    (∀ a, 0x4000 ≤ a → a ≤ 0x7FFF →
      c4.mbc.translate_address a =
        some (1 * 0x4000 + (a - 0x4000), BankType.ROM)) := by
  have hz : ramLen ≠ 0 := Nat.pos_iff_ne_zero.mp h
  refine ⟨?_, ?_, ?_, ?_⟩
  · simp +decide [Cartridge.write, Cartridge.read, MBCKind.handle_control_write,
      MBCKind.translate_address, MBC1.handle_control_write,
      MBC1.translate_address, MBC1.new, hz, Nat.zero_mod]
  · simp +decide [Cartridge.write, Cartridge.read, MBCKind.handle_control_write,
      MBCKind.translate_address, MBC1.handle_control_write,
      MBC1.translate_address, MBC1.new, hz, Nat.zero_mod]
  · simp +decide [Cartridge.write, Cartridge.read, MBCKind.handle_control_write,
      MBCKind.translate_address, MBC1.handle_control_write,
      MBC1.translate_address, MBC1.new, hz, Nat.zero_mod]
  · intro a ha1 ha2
    have h1 : ¬ (a ≤ 0x3FFF) := by omega
    simp +decide [Cartridge.write, MBCKind.handle_control_write,
      MBC1.handle_control_write, MBC1.new, MBCKind.translate_address,
      MBC1.translate_address, h1, ha1, ha2, hz]

/-- Witness for claim_C7 at the concrete 8 KiB-RAM cartridge contents
and the first banked-ROM address. -/
theorem claim_C7_witness :
    ((mbc1Cart.write 0x0000 0x0A).write 0xA000 0x42).read 0xA000 = 0x42 ∧
    (((mbc1Cart.write 0x0000 0x0A).write 0xA000 0x42).write
        0x0000 0x00).read 0xA000 = 0xFF :=
  ⟨(claim_C7 (fun _ => 0) (fun _ => 0) 0x8000 0x2000 (by decide)).1,
   (claim_C7 (fun _ => 0) (fun _ => 0) 0x8000 0x2000 (by decide)).2.1⟩

/-- C1 claim as stated is false for writes to 0xFF46 during an active
DMA: MemoryController::write_byte has no 0xFF46 arm in its Active match,
so the write is dropped, whereas the normal decode (raw_write) would
restart the DMA from the new source page. -/
theorem claim_C1_counterexample :
    c1BusActive.dma_state = DMAState.Active 0x1200 0xFE00 160 ∧
    (c1BusActive.write_byte 0xFF46 0x34).dma_state =
      DMAState.Active 0x1200 0xFE00 160 ∧
    (c1BusActive.raw_write 0xFF46 0x34).dma_state =
      DMAState.Active 0x3400 0xFE00 160 ∧
    DMAState.Active 0x1200 0xFE00 160 ≠ DMAState.Active 0x3400 0xFE00 160 := by
  refine ⟨by decide, by decide, by decide, by decide⟩

/-- C1, amended: while DMA is Active, reads go through the normal decode
for 0xFF46, high RAM 0xFF80-0xFFFE and OAM 0xFE00-0xFE9F and return 0x00
everywhere else; writes go through the normal decode for high RAM and
OAM only and are dropped everywhere else, including 0xFF46; while DMA is
Inactive, read_byte and write_byte are the normal decode for every
address. -/
theorem claim_C1 :
    (∀ (b : MemoryBus) (a o d r : Nat), b.dma_state = DMAState.Active o d r →
      ((a = 0xFF46 ∨ (0xFF80 ≤ a ∧ a ≤ 0xFFFE) ∨ (0xFE00 ≤ a ∧ a ≤ 0xFE9F)) →
        b.read_byte a = b.raw_read a) ∧
      (¬(a = 0xFF46 ∨ (0xFF80 ≤ a ∧ a ≤ 0xFFFE) ∨ (0xFE00 ≤ a ∧ a ≤ 0xFE9F)) →
        b.read_byte a = 0x00)) ∧
    (∀ (b : MemoryBus) (a v o d r : Nat),
      b.dma_state = DMAState.Active o d r →
      (((0xFF80 ≤ a ∧ a ≤ 0xFFFE) ∨ (0xFE00 ≤ a ∧ a ≤ 0xFE9F)) →
        b.write_byte a v = b.raw_write a v) ∧
      (¬((0xFF80 ≤ a ∧ a ≤ 0xFFFE) ∨ (0xFE00 ≤ a ∧ a ≤ 0xFE9F)) →
        b.write_byte a v = b)) ∧
    (∀ (b : MemoryBus) (a v : Nat), b.dma_state = DMAState.Inactive →
      b.read_byte a = b.raw_read a ∧ b.write_byte a v = b.raw_write a v) := by
  refine ⟨?_, ?_, ?_⟩
  · intro b a o d r hdma
    constructor
    · intro hx
      simp only [MemoryBus.read_byte, hdma]
      split_ifs with h1 h2 h3 <;> first | rfl | tauto
    · intro hx
      simp only [MemoryBus.read_byte, hdma]
      split_ifs with h1 h2 h3 <;> first | rfl | tauto
  · intro b a v o d r hdma
    constructor
    · intro hx
      simp only [MemoryBus.write_byte, hdma]
      split_ifs with h1 h2 <;> first | rfl | tauto
    · intro hx
      simp only [MemoryBus.write_byte, hdma]
      split_ifs with h1 h2 <;> first | rfl | tauto
  · intro b a v hdma
    exact ⟨by simp only [MemoryBus.read_byte, hdma],
           by simp only [MemoryBus.write_byte, hdma]⟩

/-- Witness for claim_C1 on the concrete bus with an active DMA from
page 0x12 and on the same bus before the DMA started. -/
theorem claim_C1_witness :
    c1BusActive.read_byte 0xFF80 = c1BusActive.raw_read 0xFF80 ∧
    c1BusActive.read_byte 0xC000 = 0x00 ∧
    c1BusActive.write_byte 0xFE00 0x07 = c1BusActive.raw_write 0xFE00 0x07 ∧
    c1BusActive.write_byte 0x8000 0x07 = c1BusActive ∧
    c1Bus.read_byte 0x0000 = c1Bus.raw_read 0x0000 ∧
    c1Bus.write_byte 0xC000 0x01 = c1Bus.raw_write 0xC000 0x01 :=
  ⟨(claim_C1.1 c1BusActive 0xFF80 0x1200 0xFE00 160 (by decide)).1
     (by omega),
   (claim_C1.1 c1BusActive 0xC000 0x1200 0xFE00 160 (by decide)).2
     (by omega),
   (claim_C1.2.1 c1BusActive 0xFE00 0x07 0x1200 0xFE00 160 (by decide)).1
     (by omega),
   (claim_C1.2.1 c1BusActive 0x8000 0x07 0x1200 0xFE00 160 (by decide)).2
     (by omega),
   (claim_C1.2.2 c1Bus 0x0000 0x00 (by decide)).1,
   (claim_C1.2.2 c1Bus 0xC000 0x01 (by decide)).2⟩

/-- Interrupt aggregation touches internal memory at most at the IF
cell (offset 0x3F0F = 0xFF0F - 0xC000). -/
theorem check_interrupts_internal (b : MemoryBus) (i : Nat)
    (hi : i ≠ 0x3F0F) :
    (b.check_interrupts).internal_memory i = b.internal_memory i := by
  simp only [MemoryBus.check_interrupts, Timer.retrieve_interrupts,
    Joypad.retrieve_interrupts, Serial.retrieve_interrupts,
    PPU.retrieve_interrupts]
  split
  · simp only [MemoryBus.trigger_interrupt, MemoryBus.write_IF]
    split
    · simp [MemoryBus.raw_write_base, hi]
    · rfl
  · rfl

/-- C6 claim as stated is false: the echo range is backed by its own
cells of internal_memory, not mirrored into work RAM, so after writing
0x42 to 0xC100 a read of 0xE100 still returns 0x00 while a read of
0xC100 returns 0x42. -/
theorem claim_C6_counterexample :
    (c6Bus.write_byte 0xC100 0x42).read_byte 0xC100 = 0x42 ∧
    (c6Bus.write_byte 0xC100 0x42).read_byte 0xE100 = 0x00 ∧
    (0x42 : Nat) ≠ 0x00 := by
  refine ⟨by decide, by decide, by decide⟩

/-- C6, amended: the echo region 0xE000-0xFDFF is not a mirror.  For an
offset k in 0x0000-0x1DFF, both reads and writes of echo address
0xE000 + k access internal_memory cell 0x2000 + k, which is disjoint
from cell k backing the work-RAM address 0xC000 + k: reads of the two
addresses return the two different cells, a write to the echo address
stores to its own cell and leaves the work-RAM cell unchanged, and vice
versa. -/
theorem claim_C6 (b : MemoryBus) (k v : Nat) (hk : k ≤ 0x1DFF)
    (hdma : b.dma_state = DMAState.Inactive) :
    b.read_byte (0xE000 + k) = b.internal_memory (0x2000 + k) ∧
    b.read_byte (0xC000 + k) = b.internal_memory k ∧
    (b.write_byte (0xE000 + k) v).internal_memory (0x2000 + k) = v ∧
    (b.write_byte (0xE000 + k) v).internal_memory k = b.internal_memory k ∧
    (b.write_byte (0xC000 + k) v).internal_memory (0x2000 + k) =
      b.internal_memory (0x2000 + k) ∧
    (0x2000 + k : Nat) ≠ k := by
  refine ⟨?_, ?_, ?_, ?_, ?_, by omega⟩
  · simp only [MemoryBus.read_byte, hdma, MemoryBus.raw_read]
    rw [if_neg (by intro hc; omega), if_neg (by intro hc; omega), if_neg (by intro hc; omega),
      if_neg (by intro hc; omega), if_neg (by intro hc; omega), if_neg (by intro hc; omega),
      if_neg (by intro hc; omega), if_neg (by intro hc; omega), if_neg (by intro hc; omega),
      if_neg (by simp; omega), if_pos (by omega)]
    rw [show (0xE000 + k - 0xC000 : Nat) = 0x2000 + k by omega]
  · simp only [MemoryBus.read_byte, hdma, MemoryBus.raw_read]
    rw [if_neg (by intro hc; omega), if_neg (by intro hc; omega), if_neg (by intro hc; omega),
      if_neg (by intro hc; omega), if_neg (by intro hc; omega), if_neg (by intro hc; omega),
      if_neg (by intro hc; omega), if_neg (by intro hc; omega), if_neg (by intro hc; omega),
      if_neg (by simp; omega), if_pos (by omega)]
    rw [show (0xC000 + k - 0xC000 : Nat) = k by omega]
  · simp only [MemoryBus.write_byte, hdma, MemoryBus.raw_write]
    rw [if_pos (by omega : (0xE000 + k : Nat) ≠ 0xFF0F)]
    rw [check_interrupts_internal _ _ (by omega)]
    simp only [MemoryBus.raw_write_base]
    rw [if_neg (by intro hc; omega), if_neg (by intro hc; omega), if_neg (by intro hc; omega),
      if_neg (by intro hc; omega), if_neg (by intro hc; omega), if_neg (by simp; omega),
      if_neg (by intro hc; omega), if_neg (by intro hc; omega), if_neg (by intro hc; omega),
      if_neg (by intro hc; omega), if_neg (by intro hc; omega), if_pos (by omega)]
    simp only []
    rw [if_pos (by omega)]
  · simp only [MemoryBus.write_byte, hdma, MemoryBus.raw_write]
    rw [if_pos (by omega : (0xE000 + k : Nat) ≠ 0xFF0F)]
    rw [check_interrupts_internal _ _ (by omega)]
    simp only [MemoryBus.raw_write_base]
    rw [if_neg (by intro hc; omega), if_neg (by intro hc; omega), if_neg (by intro hc; omega),
      if_neg (by intro hc; omega), if_neg (by intro hc; omega), if_neg (by simp; omega),
      if_neg (by intro hc; omega), if_neg (by intro hc; omega), if_neg (by intro hc; omega),
      if_neg (by intro hc; omega), if_neg (by intro hc; omega), if_pos (by omega)]
    simp only []
    rw [if_neg (by intro hc; omega)]
  · simp only [MemoryBus.write_byte, hdma, MemoryBus.raw_write]
    rw [if_pos (by omega : (0xC000 + k : Nat) ≠ 0xFF0F)]
    rw [check_interrupts_internal _ _ (by omega)]
    simp only [MemoryBus.raw_write_base]
    rw [if_neg (by intro hc; omega), if_neg (by intro hc; omega), if_neg (by intro hc; omega),
      if_neg (by intro hc; omega), if_neg (by intro hc; omega), if_neg (by simp; omega),
      if_neg (by intro hc; omega), if_neg (by intro hc; omega), if_neg (by intro hc; omega),
      if_neg (by intro hc; omega), if_neg (by intro hc; omega), if_pos (by omega)]
    simp only []
    rw [if_neg (by intro hc; omega)]

/-- Witness for claim_C6 at offset 0x0100 (echo address 0xE100) on the
fresh bus. -/
theorem claim_C6_witness :
    c6Bus.read_byte (0xE000 + 0x0100) = c6Bus.internal_memory (0x2000 + 0x0100) ∧
    (c6Bus.write_byte (0xE000 + 0x0100) 0x42).internal_memory
      (0x2000 + 0x0100) = 0x42 ∧
    (0x2000 + 0x0100 : Nat) ≠ 0x0100 := by
  have h := claim_C6 c6Bus 0x0100 0x42 (by omega) (by decide)
  exact ⟨h.1, h.2.2.1, h.2.2.2.2.2⟩

/-- C2 claim as stated is false when the only pending IE-and-IF bits are
outside the five interrupt sources (reachable, since IF at 0xFF0F and IE
at 0xFFFF are plain bytes the guest can write): with IE = IF = 0x20 the
dispatch is scheduled and finalized (IE and IF are non-zero at the
finalizing check), bit 5 is cleared from the IF snapshot, but PC is set
to no vector at all - it still holds 0x0100 after the five dispatch
slots, and the dispatch state is left in Finalizing. -/
theorem claim_C2_counterexample :
    (cpuTicks 4 c2Cpu).interrupt_dispatch =
      InterruptDispatchState.Finalizing 0x20 0x20 ∧
    (cpuTicks 5 c2Cpu).program_counter = 0x0100 ∧
    ((cpuTicks 5 c2Cpu).program_counter ∉
      [0x0000, 0x0040, 0x0048, 0x0050, 0x0058, 0x0060]) ∧
    (cpuTicks 5 c2Cpu).memory 0xFF0F = 0x00 ∧
    (cpuTicks 5 c2Cpu).ime = IMEState.Disabled ∧
    (cpuTicks 5 c2Cpu).interrupt_dispatch =
      InterruptDispatchState.Finalizing 0x20 0x20 := by
  refine ⟨by decide, by decide, by decide, by decide, by decide, by decide⟩

/-- C2, amended: scheduling fills the queue with the five dispatch
micro-ops; if IE and IF intersect to zero at any of the per-slot checks
the dispatch state becomes Cancelling and the terminal micro-op then
sets PC to 0x0000 with IME Disabled; otherwise the terminal micro-op
clears the lowest-numbered pending bit from the IF snapshot and, when
that bit is one of the five interrupt sources (bits 0-4), sets PC to
that source's vector 0x0040 + 8*i; when the lowest pending bit is bit 5
or above, the bit is still cleared but PC is left unchanged (shown by
the counterexample). -/
theorem claim_C2 :
    (∀ c : CPU,
      c.interrupt_dispatch = InterruptDispatchState.Waiting →
      c.operation_queue = [] → c.state = CPUState.Ready →
      c.ime = IMEState.Enabled →
      c.read_memory 0xFFFF &&& c.read_memory 0xFF0F ≠ 0 →
      (c.handle_interrupts).operation_queue =
        [CPU.Operation.Nop, CPU.Operation.Nop,
         CPU.Operation.StackPush OpTarget.ProgramCounterHigh,
         CPU.Operation.StackPush OpTarget.ProgramCounterLow,
         CPU.Operation.InterruptDispatch] ∧
      (c.handle_interrupts).interrupt_dispatch =
        InterruptDispatchState.Dispatching 2) ∧
    (∀ (c : CPU) (k : Nat) (op : CPU.Operation),
      c.interrupt_dispatch = InterruptDispatchState.Dispatching k →
      c.state ≠ CPUState.Halted → c.operation_queue.head? = some op →
      (op = CPU.Operation.Nop ∨ ∃ x, op = CPU.Operation.StackPush x) →
      c.read_memory 0xFFFF &&& c.read_memory 0xFF0F = 0 →
      ((CPU.step c).1).interrupt_dispatch =
        InterruptDispatchState.Cancelling) ∧
    (∀ c : CPU,
      c.interrupt_dispatch = InterruptDispatchState.Cancelling →
      c.state ≠ CPUState.Halted →
      c.operation_queue.head? = some CPU.Operation.InterruptDispatch →
      ((CPU.step c).1).program_counter = 0x0000 ∧
      ((CPU.step c).1).ime = IMEState.Disabled ∧
      ((CPU.step c).1).interrupt_dispatch = InterruptDispatchState.Waiting) ∧
    (∀ (c : CPU) (ie ifl i : Nat),
      c.interrupt_dispatch = InterruptDispatchState.Finalizing ie ifl →
      c.state ≠ CPUState.Halted →
      c.operation_queue.head? = some CPU.Operation.InterruptDispatch →
      CPU.trailingZeros8 (ie &&& ifl) = i → i ≤ 4 →
      ((CPU.step c).1).program_counter = 0x0040 + 8 * i ∧
      ((CPU.step c).1).memory 0xFF0F = ifl &&& (0xFF ^^^ (1 <<< i)) ∧
      ((CPU.step c).1).ime = IMEState.Disabled ∧
      ((CPU.step c).1).interrupt_dispatch =
        InterruptDispatchState.Waiting) := by
  refine ⟨?_, ?_, ?_, ?_⟩
  · intro c hdis hq hst hime hnz
    simp [CPU.handle_interrupts, hdis, hq, hst, hime, hnz, CPU.extendOps,
      CPU.pushOp, OP_QUEUE_SIZE]
  · intro c k op hdis hst hq hop hz
    obtain ⟨rest, hqe⟩ : ∃ rest, c.operation_queue = op :: rest := by
      cases hcq : c.operation_queue with
      | nil => rw [hcq] at hq; simp at hq
      | cons o r => rw [hcq] at hq; simp at hq; exact ⟨r, by rw [hq]⟩
    rcases hop with rfl | ⟨x, rfl⟩
    · cases k <;>
        simp [CPU.step, CPU.handle_interrupts, hdis, hqe, hst, hz, CPU.exec]
    · cases k <;> cases x <;>
        simp [CPU.step, CPU.handle_interrupts, hdis, hqe, hst, hz, CPU.exec,
          CPU.read_target, CPU.write_memory] <;>
        (split <;> simp)
  · intro c hdis hst hq
    obtain ⟨rest, hqe⟩ :
        ∃ rest, c.operation_queue = CPU.Operation.InterruptDispatch :: rest := by
      cases hcq : c.operation_queue with
      | nil => rw [hcq] at hq; simp at hq
      | cons o r => rw [hcq] at hq; simp at hq; exact ⟨r, by rw [hq]⟩
    simp [CPU.step, CPU.handle_interrupts, hdis, hqe, hst, CPU.exec]
  · intro c ie ifl i hdis hst hq hi hle
    obtain ⟨rest, hqe⟩ :
        ∃ rest, c.operation_queue = CPU.Operation.InterruptDispatch :: rest := by
      cases hcq : c.operation_queue with
      | nil => rw [hcq] at hq; simp at hq
      | cons o r => rw [hcq] at hq; simp at hq; exact ⟨r, by rw [hq]⟩
    interval_cases i <;>
      simp [CPU.step, CPU.handle_interrupts, hdis, hqe, hst, CPU.exec, hi,
        CPU.write_memory, wrap16]

/-- Witness for claim_C2 at concrete dispatch states: scheduling on
c2Cpu, cancellation detection on c2CpuMid, terminal cancellation on
c2CpuCancel, and a normal VBLANK finalization on c2CpuFinal. -/
theorem claim_C2_witness :
    (c2Cpu.handle_interrupts).interrupt_dispatch =
      InterruptDispatchState.Dispatching 2 ∧
    ((CPU.step c2CpuMid).1).interrupt_dispatch =
      InterruptDispatchState.Cancelling ∧
    ((CPU.step c2CpuCancel).1).program_counter = 0x0000 ∧
    ((CPU.step c2CpuFinal).1).program_counter = 0x0040 + 8 * 0 :=
  ⟨(claim_C2.1 c2Cpu (by decide) (by decide) (by decide) (by decide)
      (by decide)).2,
   claim_C2.2.1 c2CpuMid 1 CPU.Operation.Nop (by decide) (by decide)
     (by decide) (Or.inl rfl) (by decide),
   (claim_C2.2.2.1 c2CpuCancel (by decide) (by decide) (by decide)).1,
   (claim_C2.2.2.2 c2CpuFinal 0x01 0x01 0 (by decide) (by decide) (by decide)
      (by decide) (by decide)).1⟩

/-- C3 is a code bug: CPU::tick promotes WillEnable to Enabled right
after load_operation in the same 4-cycle slot, so EI's own decode slot
already leaves IME Enabled, and an interrupt pending during EI is
scheduled in the very next slot, before the following instruction (here
a NOP at 0x0101) executes - PC reaches the VBLANK vector 0x0040 with
the NOP still unexecuted.  This contradicts both the claim and the
comment on the 0xFB decoder arm (the flag is only set after the
instruction following EI). -/
theorem claim_C3 :
    (cpuTicks 1 c3Cpu).ime = IMEState.Enabled ∧
    (cpuTicks 1 c3Cpu).program_counter = 0x0101 ∧
    (cpuTicks 2 c3Cpu).interrupt_dispatch =
      InterruptDispatchState.Dispatching 2 ∧
    (cpuTicks 2 c3Cpu).program_counter = 0x0101 ∧
    (cpuTicks 6 c3Cpu).program_counter = 0x0040 ∧
    (cpuTicks 6 c3Cpu).ime = IMEState.Disabled ∧
    (cpuTicks 6 c3Cpu).memory 0xFFFC = 0x01 := by
  refine ⟨by decide, by decide, by decide, by decide, by decide, by decide,
    by decide⟩

/-- PPU::check_lyc only touches the coincidence flag, the active STAT
sources and the pending interrupts. -/
theorem check_lyc_proj (p : PPU) :
    (p.check_lyc).operation_queue = p.operation_queue ∧
    (p.check_lyc).registers.ly = p.registers.ly ∧
    (p.check_lyc).lcd_state = p.lcd_state ∧
    (p.check_lyc).mode = p.mode ∧
    (p.check_lyc).registers.stat.bit7 = p.registers.stat.bit7 ∧
    (p.check_lyc).registers.stat.lyc_interrupt_enable =
      p.registers.stat.lyc_interrupt_enable := by
  simp only [PPU.check_lyc, PPU.enable_stat_interrupt,
    PPU.disable_stat_interrupt]
  split
  · split <;> simp
  · simp

/-- C5 claim as stated is false for the LY clause: disabling the LCD
mid-frame (here on line 5) leaves LY untouched; only the enable
transition zeroes LY. -/
theorem claim_C5_counterexample :
    c5Ppu.lcd_state = LcdState.Enabled ∧
    c5Ppu.enabled = false ∧
    (PPU.tick 8 c5Ppu 4).lcd_state = LcdState.Disabled ∧
    (PPU.tick 8 c5Ppu 4).registers.ly = 5 ∧ (5 : Nat) ≠ 0 := by
  refine ⟨by decide, by decide, by decide, by decide, by decide⟩

/-- C5, amended: clearing LCDC bit 7 while the LCD is enabled makes the
next PPU tick set the mode to HBlank, clear the STAT mode bits, clear
the operation queue and disable the LCD, leaving LY unchanged; setting
LCDC bit 7 while the LCD is disabled makes the next tick zero LY and
restart the queue as a ModeChange(Drawing) followed by a 2-cycle sleep,
so the PPU resumes in Drawing mode on line 0 (not OAMScan). -/
theorem claim_C5 :
    (∀ (p : PPU) (fuel cycles : Nat), p.lcd_state = LcdState.Enabled →
      p.enabled = false →
      (PPU.tick fuel p cycles).mode = Mode.HBlank ∧
      (PPU.tick fuel p cycles).registers.stat.mode_0 = false ∧
      (PPU.tick fuel p cycles).registers.stat.mode_1 = false ∧
      (PPU.tick fuel p cycles).operation_queue = [] ∧
      (PPU.tick fuel p cycles).lcd_state = LcdState.Disabled ∧
      (PPU.tick fuel p cycles).registers.ly = p.registers.ly) ∧
    (∀ (p : PPU) (fuel cycles : Nat), p.lcd_state = LcdState.Disabled →
      p.enabled = true →
      (PPU.tick fuel p cycles).lcd_state = LcdState.Enabled ∧
      (PPU.tick fuel p cycles).operation_queue =
        [PPU.Operation.ModeChange Mode.Drawing, PPU.Operation.Sleep 2] ∧
      (PPU.tick fuel p cycles).registers.ly = 0 ∧
      (PPU.tick fuel p cycles).mode = p.mode) ∧
    ((PPU.tick 64 (PPU.tick 8 c5PpuOn 4) 4).mode = Mode.Drawing ∧
     (PPU.tick 64 (PPU.tick 8 c5PpuOn 4) 4).registers.ly = 0 ∧
     Mode.Drawing ≠ Mode.OAMScan) := by
  refine ⟨?_, ?_, ?_⟩
  · intro p fuel cycles hlcd hen
    simp [PPU.tick, hlcd, PPU.enabled] at *
    simp [hen, PPU.disable_stat_interrupt]
  · intro p fuel cycles hlcd hen
    have h := check_lyc_proj
      { p with
        operation_queue :=
          [PPU.Operation.ModeChange Mode.Drawing, PPU.Operation.Sleep 2]
        lcd_state := LcdState.Enabled
        registers := { p.registers with ly := 0 } }
    simp [PPU.tick, hlcd, PPU.enabled] at *
    simp [hen, h.1, h.2.1, h.2.2.1, h.2.2.2.1]
  · refine ⟨by decide, by decide, by decide⟩

/-- Witness for claim_C5: the two transition conjuncts instantiated at
the concrete disable and enable scenario states. -/
theorem claim_C5_witness :
    c5Ppu.lcd_state = LcdState.Enabled ∧ c5Ppu.enabled = false ∧
    (PPU.tick 8 c5Ppu 4).registers.ly = c5Ppu.registers.ly ∧
    c5PpuOn.lcd_state = LcdState.Disabled ∧ c5PpuOn.enabled = true ∧
    (PPU.tick 8 c5PpuOn 4).registers.ly = 0 :=
  ⟨by decide, by decide,
   (claim_C5.1 c5Ppu 8 4 (by decide) (by decide)).2.2.2.2.2,
   by decide, by decide,
   (claim_C5.2.1 c5PpuOn 8 4 (by decide) (by decide)).2.2.1⟩

/-- PPU::check_lyc leaves STAT bit 7 alone. -/
theorem check_lyc_bit7 (p : PPU) :
    (p.check_lyc).registers.stat.bit7 = p.registers.stat.bit7 :=
  (check_lyc_proj p).2.2.2.2.1

/-- PPU::check_lyc leaves the LYC-interrupt-enable STAT bit alone. -/
theorem check_lyc_lie (p : PPU) :
    (p.check_lyc).registers.stat.lyc_interrupt_enable =
      p.registers.stat.lyc_interrupt_enable :=
  (check_lyc_proj p).2.2.2.2.2

/-- PPU::enable_stat_interrupt never touches the register file. -/
theorem enable_stat_registers (p : PPU) (i : STAT) :
    (p.enable_stat_interrupt i).registers = p.registers := by
  simp only [PPU.enable_stat_interrupt]
  split <;> rfl

/-- PPU::disable_stat_interrupt never touches the register file. -/
theorem disable_stat_registers (p : PPU) (i : STAT) :
    (p.disable_stat_interrupt i).registers = p.registers := rfl

/-- A fold over sprites whose step never touches the register file
leaves the register file alone (used for the sprite-fetch fold in the
CheckPixel arm). -/
theorem foldl_registers (f : PPU → Sprite → PPU)
    (hf : ∀ q s, (f q s).registers = q.registers) :
    ∀ (l : List Sprite) (q : PPU), (l.foldl f q).registers = q.registers := by
  intro l
  induction l with
  | nil => intro q; rfl
  | cons s t ih =>
      intro q
      simp only [List.foldl]
      rw [ih, hf]

/-- PPU::reset_scanline preserves STAT bits 7 and 6. -/
theorem reset_scanline_statKeep (p : PPU) (n : Nat) :
    (p.reset_scanline n).registers.stat.bit7 = p.registers.stat.bit7 ∧
    (p.reset_scanline n).registers.stat.lyc_interrupt_enable =
      p.registers.stat.lyc_interrupt_enable := by
  simp only [PPU.reset_scanline]
  split <;> simp [check_lyc_bit7, check_lyc_lie]

set_option maxHeartbeats 2000000 in
/-- Every operation the PPU dequeues preserves STAT bits 7 and 6: the
ModeChange arm only rewrites the two mode bits, and scanline resets only
rewrite the coincidence flag. -/
theorem processOp_statKeep (op : PPU.Operation) (p : PPU) :
    (PPU.processOp op p).registers.stat.bit7 = p.registers.stat.bit7 ∧
    (PPU.processOp op p).registers.stat.lyc_interrupt_enable =
      p.registers.stat.lyc_interrupt_enable := by
  cases op with
  | NewFrame =>
      simp only [PPU.processOp, PPU.pushOp]
      simp [reset_scanline_statKeep]
  | NewScanline =>
      simp only [PPU.processOp, PPU.pushOp, PPU.extendOps]
      split_ifs <;> simp [reset_scanline_statKeep]
  | ModeChange mode =>
      simp only [PPU.processOp, PPU.pushOp, PPU.extendOps]
      cases mode <;>
        simp [enable_stat_registers, disable_stat_registers]
  | OAMSearch index =>
      simp only [PPU.processOp]
      repeat first
      | split
      | exact ⟨rfl, rfl⟩
  | FetchBackgroundPixels => exact ⟨rfl, rfl⟩
  | FetchWindowPixels => exact ⟨rfl, rfl⟩
  | FetchSpritePixels sprite =>
      simp only [PPU.processOp]
      repeat first
      | split
      | exact ⟨rfl, rfl⟩
  | PushBackgroundPixels pixels =>
      simp only [PPU.processOp]
      repeat first
      | split
      | exact ⟨rfl, rfl⟩
  | PopPixels =>
      simp only [PPU.processOp]
      repeat first
      | split
      | exact ⟨rfl, rfl⟩
  | CheckPixel =>
      simp only [PPU.processOp, PPU.pushOp, PPU.extendOps]
      split_ifs <;>
        first
        | exact ⟨rfl, rfl⟩
        | (rw [foldl_registers]
           exact ⟨rfl, rfl⟩
           intro q s
           split <;> rfl)
  | Sleep n => exact ⟨rfl, rfl⟩

/-- The PPU operation loop preserves STAT bits 7 and 6. -/
theorem tickOps_statKeep (fuel : Nat) (p : PPU) :
    (PPU.tickOps fuel p).registers.stat.bit7 = p.registers.stat.bit7 ∧
    (PPU.tickOps fuel p).registers.stat.lyc_interrupt_enable =
      p.registers.stat.lyc_interrupt_enable := by
  induction fuel generalizing p with
  | zero => exact ⟨rfl, rfl⟩
  | succ n ih =>
      cases hq : p.operation_queue with
      | nil => simp [PPU.tickOps, hq]
      | cons op rest =>
          simp only [PPU.tickOps, hq]
          split
          · exact ⟨((ih _).1.trans (processOp_statKeep op _).1),
                   ((ih _).2.trans (processOp_statKeep op _).2)⟩
          · exact ⟨rfl, rfl⟩

/-- Register::tick for the PPU preserves STAT bits 7 and 6. -/
theorem ppu_tick_statKeep (fuel cycles : Nat) (p : PPU) :
    (PPU.tick fuel p cycles).registers.stat.bit7 =
      p.registers.stat.bit7 ∧
    (PPU.tick fuel p cycles).registers.stat.lyc_interrupt_enable =
      p.registers.stat.lyc_interrupt_enable := by
  cases hl : p.lcd_state with
  | Enabled =>
      simp only [PPU.tick, hl]
      split
      · exact ⟨rfl, rfl⟩
      · exact ⟨(tickOps_statKeep fuel _).1, (tickOps_statKeep fuel _).2⟩
  | Disabled =>
      simp only [PPU.tick, hl]
      split
      · exact ⟨(check_lyc_bit7 _), (check_lyc_lie _)⟩
      · exact ⟨rfl, rfl⟩

set_option maxHeartbeats 2000000 in
/-- InternalRegisters::write preserves STAT bits 7 and 6: the 0xFF41 arm
only replaces bits 5, 4 and 3, every other arm leaves STAT alone. -/
theorem iregs_write_statKeep (r : InternalRegisters) (a v : Nat) :
    (r.write a v).stat.bit7 = r.stat.bit7 ∧
    (r.write a v).stat.lyc_interrupt_enable =
      r.stat.lyc_interrupt_enable := by
  simp only [InternalRegisters.write]
  split_ifs <;> exact ⟨rfl, rfl⟩

/-- Register::write for the PPU preserves STAT bits 7 and 6 at every
address. -/
theorem ppu_write_statKeep (p : PPU) (a v : Nat) :
    (PPU.write p a v).registers.stat.bit7 = p.registers.stat.bit7 ∧
    (PPU.write p a v).registers.stat.lyc_interrupt_enable =
      p.registers.stat.lyc_interrupt_enable := by
  simp only [PPU.write]
  split_ifs <;>
    simp [iregs_write_statKeep, check_lyc_bit7, check_lyc_lie]

/-- bits() of a STAT value with bits 7 and 6 set always has 0xC0 set. -/
theorem stat_bits_hi (s : STAT) (h7 : s.bit7 = true)
    (h6 : s.lyc_interrupt_enable = true) : s.bits &&& 0xC0 = 0xC0 := by
  obtain ⟨b7, b6, a, b, c, d, e, f⟩ := s
  revert b7 b6 a b c d e f
  decide

/-- Reading 0xFF41 through the PPU returns STAT.bits. -/
theorem ppu_read_stat (p : PPU) :
    PPU.read p 0xFF41 = p.registers.stat.bits := by
  simp [PPU.read, InternalRegisters.read]

/-- C10 confirmed: a STAT (0xFF41) write only takes bits 5, 4 and 3 from
the written byte and keeps bits 7, 6, 2, 1, 0 of the old value; STAT
starts at power-on with bits 7 and 6 set (from_bits_retain(0xC0)); and
in every PPU state reachable from PPU::new by ticks, register writes and
interrupt retrieval, bits 7 and 6 stay set, so every read of 0xFF41
returns a value with 0xC0 set and the guest can never change the LYC=LY
interrupt-enable bit (bit 6). -/
theorem claim_C10 :
    (∀ (r : InternalRegisters) (v : Nat),
      (r.write 0xFF41 v).stat.oam_scan_interrupt_enable = v.testBit 5 ∧
      (r.write 0xFF41 v).stat.vblank_interrupt_enable = v.testBit 4 ∧
      (r.write 0xFF41 v).stat.hblank_interrupt_enable = v.testBit 3 ∧
      (r.write 0xFF41 v).stat.bit7 = r.stat.bit7 ∧
      (r.write 0xFF41 v).stat.lyc_interrupt_enable =
        r.stat.lyc_interrupt_enable ∧
      (r.write 0xFF41 v).stat.coincidence_flag = r.stat.coincidence_flag ∧
      (r.write 0xFF41 v).stat.mode_1 = r.stat.mode_1 ∧
      (r.write 0xFF41 v).stat.mode_0 = r.stat.mode_0) ∧
    (PPU.new.registers.stat.bit7 = true ∧
     PPU.new.registers.stat.lyc_interrupt_enable = true) ∧
    (∀ p : PPU, PPUReachable p →
      p.registers.stat.bit7 = true ∧
      p.registers.stat.lyc_interrupt_enable = true ∧
      (PPU.read p 0xFF41) &&& 0xC0 = 0xC0) := by
  refine ⟨?_, ⟨rfl, rfl⟩, ?_⟩
  · intro r v
    simp [InternalRegisters.write]
  · intro p h
    induction h with
    | new =>
        refine ⟨rfl, rfl, ?_⟩
        rw [ppu_read_stat]
        exact stat_bits_hi _ rfl rfl
    | tick fuel cycles hr ih =>
        rename_i q
        have hk := ppu_tick_statKeep fuel cycles q
        refine ⟨hk.1.trans ih.1, hk.2.trans ih.2.1, ?_⟩
        rw [ppu_read_stat]
        exact stat_bits_hi _ (hk.1.trans ih.1) (hk.2.trans ih.2.1)
    | write a v hr ih =>
        rename_i q
        have hk := ppu_write_statKeep q a v
        refine ⟨hk.1.trans ih.1, hk.2.trans ih.2.1, ?_⟩
        rw [ppu_read_stat]
        exact stat_bits_hi _ (hk.1.trans ih.1) (hk.2.trans ih.2.1)
    | drain hr ih =>
        refine ⟨ih.1, ih.2.1, ?_⟩
        rw [ppu_read_stat]
        exact stat_bits_hi _ ih.1 ih.2.1

/-- Witness for claim_C10: even writing 0x00 to 0xFF41 on a fresh PPU
leaves bits 7 and 6 of STAT set. -/
theorem claim_C10_witness :
    PPUReachable (PPU.write PPU.new 0xFF41 0x00) ∧
    (PPU.write PPU.new 0xFF41 0x00).registers.stat.lyc_interrupt_enable
      = true ∧
    (PPU.read (PPU.write PPU.new 0xFF41 0x00) 0xFF41) &&& 0xC0 = 0xC0 :=
  ⟨PPUReachable.write 0xFF41 0x00 PPUReachable.new,
   (claim_C10.2.2 _ (PPUReachable.write 0xFF41 0x00 PPUReachable.new)).2.1,
   (claim_C10.2.2 _ (PPUReachable.write 0xFF41 0x00 PPUReachable.new)).2.2⟩

/-- C9 is a code bug: with the action buttons selected, a keydown of A
drives bit 0 of the aggregated low nibble of the 0xFF00 value from 1 to
0, yet Joypad::keydown never requests the JOYPAD interrupt (the only
code that did so is commented out), so retrieve_interrupts keeps
returning none and nothing is ever ORed into IF. -/
theorem claim_C9 :
    c9Joypad.read &&& 0x1 = 0x1 ∧
    (c9Joypad.keydown JoypadAction.A).read &&& 0x1 = 0x0 ∧
    (c9Joypad.keydown JoypadAction.A).pending_interrupts = none ∧
    ((c9Joypad.keydown JoypadAction.A).retrieve_interrupts).1 = none := by
  decide

end Emyco
